import Mathlib

/-
Verification of the GLU genotype model / binary genotype matrix codec
(glu/lib/genolib/genoarray.py and glu/lib/genolib/formats/binary.py).

The Python source is shallowly embedded: classes become structures, mutation
becomes explicit state passing, exceptions become an error type threaded via
Except (or returned next to the post-mutation state where the source mutates
before raising).  Python dicts keyed by tuples become insertion-ordered
association lists, which reproduces both lookup and the insertion-order
iteration the source relies on.
-/

set_option maxHeartbeats 1000000

/-- Error values corresponding to the Python exceptions raised by the source:
GenotypeError(ValueError) with its message, plain KeyError from dict lookup,
IOError and ValueError with their messages, IndexError from list indexing,
ZeroDivisionError from integer division, AssertionError from assert
statements, LengthMismatch from izip_exact, and UnboundLocalError for
referencing a local name that no branch assigned. -/
inductive GErr where
  | genotypeError (msg : String)
  | keyError
  | ioError (msg : String)
  | valueError (msg : String)
  | indexError
  | zeroDivisionError
  | assertionError
  | lengthMismatch
  | unboundLocal
  deriving Repr, DecidableEq, Inhabited

/-- Alleles are interned strings or the missing sentinel None
(source: genoarray.py treats alleles as str-or-None; interning makes value
equality coincide with object identity). -/
abbrev Allele := Option String

/-- Genotype tuples are ordered pairs of alleles. -/
abbrev Pair := Allele × Allele

/-- Lookup in an insertion-ordered association list, the embedding of Python
dict lookup (value equality on keys). -/
def assocFind {κ : Type} {α : Type} [DecidableEq κ] : List (κ × α) → κ → Option α
  | [], _ => none
  | (k, v) :: rest, key => if k = key then some v else assocFind rest key

/-- Assignment d[k] = v on an insertion-ordered association list: replace the
first binding of k in place, else append, matching Python dict semantics. -/
def assocSet {κ : Type} {α : Type} [DecidableEq κ] : List (κ × α) → κ → α → List (κ × α)
  | [], key, v => [(key, v)]
  | (k, w) :: rest, key, v =>
      if k = key then (k, v) :: rest else (k, w) :: assocSet rest key v

/-- Embedding of Python list.index for the in-range uses of the source
(genoarray.py only calls .index on elements known to be present, so the
out-of-range ValueError path is never reachable there). -/
def pyIndex {α : Type} [DecidableEq α] : List α → α → Nat
  | [], _ => 0
  | x :: xs, a => if x = a then 0 else pyIndex xs a + 1

/-- Fuel-driven ceiling base-2 logarithm: clog2Aux fuel m computes
ceil(log2 m) (0 for m at most 1) whenever fuel is at least m, via the
recurrence ceil(log2 m) = ceil(log2 (ceil(m/2))) + 1 for m at least 2.
Structural recursion on fuel keeps it kernel-reducible. -/
def clog2Aux : Nat → Nat → Nat
  | 0, _ => 0
  | fuel + 1, m => if m ≤ 1 then 0 else clog2Aux fuel ((m + 1) / 2) + 1

/-- Exact value of the float expression int(ceil(log(m)/log(2.0))) in
genoarray.py, embedded as the exact ceiling base-2 logarithm (the IEEE
double rounding of the source is idealized to exact real arithmetic). -/
def ceil_log2 (m : Nat) : Nat := clog2Aux m m

/-- Source: genoarray.py genotype_bit_size(n, allow_hemizygote) - the number
of bits of storage needed for a model with n alleles. -/
def genotype_bit_size (n : Nat) (allow_hemizygote : Bool) : Nat :=
  ceil_log2 (if allow_hemizygote then (n + 1) * (n + 2) / 2 else n * (n + 1) / 2 + 1)

/-- Source: genoarray.py byte_array_size(n) = int(ceil(n/8)); exact for Nat. -/
def byte_array_size (n : Nat) : Nat := (n + 7) / 8

/-- Genotype class constants MISSING,HEMIZYGOTE,HETEROZYGOTE,HOMOZYGOTE = range(4). -/
def MISSING : Nat := 0

/-- Genotype class constant: exactly one allele absent. -/
def HEMIZYGOTE : Nat := 1

/-- Genotype class constant: two distinct present alleles. -/
def HETEROZYGOTE : Nat := 2

/-- Genotype class constant: two equal present alleles. -/
def HOMOZYGOTE : Nat := 3

/-- Source: genoarray.py _hemi(geno) = (geno[0] is None) xor (geno[1] is None). -/
def hemiPair (geno : Pair) : Bool :=
  (decide (geno.1 = none)) ^^ (decide (geno.2 = none))

/-- Lexicographic strict comparison of character lists by code point,
matching Python 2 byte-wise string comparison on the ASCII identifiers the
source uses (kernel-reducible, unlike the Mathlib String order). -/
def charListLt : List Char → List Char → Bool
  | [], [] => false
  | [], _ :: _ => true
  | _ :: _, [] => false
  | c :: cs, d :: ds =>
      if c.toNat < d.toNat then true
      else if d.toNat < c.toNat then false
      else charListLt cs ds

/-- Strict string comparison via charListLt. -/
def stringLt (x y : String) : Bool := charListLt x.data y.data

/-- Python 2 comparison on alleles: None sorts before every string, strings
compare lexicographically. -/
def alleleLt (a b : Allele) : Bool :=
  match a, b with
  | none, none => false
  | none, some _ => true
  | some _, none => false
  | some x, some y => stringLt x y

/-- Embedding of sorted(geno) for a 2-tuple: a stable two-element sort that
swaps exactly when the second element compares strictly below the first. -/
def sortPair (g : Pair) : Pair := if alleleLt g.2 g.1 then (g.2, g.1) else g

/-- Source: genoarray.py Genotype - a genotype bound to a model, recording
its alleles, their indices in the model allele list, its dense model-local
index and its class.  The model back-reference is not stored (the embedding
passes the owning model explicitly where the source consults geno.model). -/
structure Genotype where
  allele1 : Allele
  allele2 : Allele
  allele1_index : Nat
  allele2_index : Nat
  index : Nat
  gclass : Nat
  deriving Repr, DecidableEq, Inhabited

/-- Source: Genotype.alleles() returning the allele tuple. -/
def Genotype.alleles (g : Genotype) : Pair := (g.allele1, g.allele2)

/-- Source: Genotype.hemizygote(). -/
def Genotype.hemizygote (g : Genotype) : Bool := g.gclass = HEMIZYGOTE

/-- Source: Genotype.__init__(model, allele1, allele2, index).  The allele
indices come from model.alleles.index; the class is computed from which
alleles are missing.  The source raise for equal-but-not-identical alleles
is unreachable under interning (equal strings are identical), so the
homozygote test is value equality here. -/
def Genotype.make (alleles : List Allele) (allele1 allele2 : Allele) (index : Nat) : Genotype :=
  { allele1 := allele1, allele2 := allele2,
    allele1_index := pyIndex alleles allele1,
    allele2_index := pyIndex alleles allele2,
    index := index,
    gclass :=
      if allele1 = none ∧ allele2 = none then MISSING
      else if allele1 = none ∨ allele2 = none then HEMIZYGOTE
      else if allele1 = allele2 then HOMOZYGOTE
      else HETEROZYGOTE }

/-- Source: genoarray.py UnphasedMarkerModel - ordered allele list, ordered
genotype list, genotype map (dict from allele tuples in both orders to the
genotype), the bit size fixed at construction, the hemizygote flag and the
allele capacity. -/
structure UnphasedMarkerModel where
  alleles : List Allele
  genotypes : List Genotype
  genomap : List (Pair × Genotype)
  bit_size : Nat
  allow_hemizygote : Bool
  max_alleles : Nat
  deriving Repr, DecidableEq, Inhabited

/-- Source: UnphasedMarkerModel.add_allele(allele).  Returns the existing
index for a known allele; otherwise checks the bit width needed after the
append (len(self.alleles) counts the missing sentinel, so it equals the
resulting number of proper alleles) against the fixed bit size, raising
GenotypeError when it exceeds it, else appends.  The result is returned next
to the post-call model state. -/
def UnphasedMarkerModel.add_allele (self : UnphasedMarkerModel) (allele : Allele) :
    Except GErr Nat × UnphasedMarkerModel :=
  if allele ∈ self.alleles then
    (Except.ok (pyIndex self.alleles allele), self)
  else
    let n := self.alleles.length
    let new_width := genotype_bit_size n self.allow_hemizygote
    if self.bit_size < new_width then
      (Except.error (GErr.genotypeError ("Allele cannot be added to model due to fixed bit width")), self)
    else
      (Except.ok n, { self with alleles := self.alleles ++ [allele] })

/-- Source: UnphasedMarkerModel.add_genotype(geno) for a genotype tuple:
return the mapped genotype if the tuple was seen, else canonicalize the
order, add both alleles (capacity-checked), build the Genotype, reject
hemizygotes when disallowed (note the alleles were already added by then,
as in the source), and append it to the genotype list and both orders to
the genotype map. -/
def UnphasedMarkerModel.add_genotype (self : UnphasedMarkerModel) (geno : Pair) :
    Except GErr Genotype × UnphasedMarkerModel :=
  match assocFind self.genomap geno with
  | some g => (Except.ok g, self)
  | none =>
    let sp := sortPair geno
    match self.add_allele sp.1 with
    | (Except.error e, m) => (Except.error e, m)
    | (Except.ok index1, m1) =>
      match m1.add_allele sp.2 with
      | (Except.error e, m) => (Except.error e, m)
      | (Except.ok index2, m2) =>
        let allele1 := m2.alleles.getD index1 none
        let allele2 := m2.alleles.getD index2 none
        let g := Genotype.make m2.alleles allele1 allele2 m2.genotypes.length
        if m2.allow_hemizygote = false ∧ g.gclass = HEMIZYGOTE then
          (Except.error (GErr.genotypeError ("Genotype model does not allow hemizygous genotypes")), m2)
        else
          (Except.ok g,
           { m2 with genotypes := m2.genotypes ++ [g],
                     genomap := assocSet (assocSet m2.genomap (allele1, allele2) g) (allele2, allele1) g })

/-- Source: UnphasedMarkerModel.get_genotype(geno) for a genotype tuple:
dict lookup; on KeyError, silently delegate to add_genotype when both
alleles are already known and the pair is not a disallowed hemizygote,
otherwise re-raise the KeyError. -/
def UnphasedMarkerModel.get_genotype (self : UnphasedMarkerModel) (geno : Pair) :
    Except GErr Genotype × UnphasedMarkerModel :=
  match assocFind self.genomap geno with
  | some g => (Except.ok g, self)
  | none =>
    if geno.1 ∈ self.alleles ∧ geno.2 ∈ self.alleles ∧
       (self.allow_hemizygote = true ∨ hemiPair geno = false) then
      self.add_genotype geno
    else
      (Except.error GErr.keyError, self)

/-- Source: UnphasedMarkerModel.__init__(allow_hemizygote, max_alleles).
max(2, max_alleles) with Python 2 semantics (None compares below every int,
so max(2, None) = 2); the bit size is fixed from the clamped capacity; the
missing genotype (None, None) is added last (that call always succeeds, so
only its state matters). -/
def UnphasedMarkerModel.init (allow_hemizygote : Bool) (max_alleles : Option Nat) :
    UnphasedMarkerModel :=
  let ma := match max_alleles with
            | none => 2
            | some k => max 2 k
  let base : UnphasedMarkerModel :=
    { alleles := [], genotypes := [], genomap := [],
      bit_size := genotype_bit_size ma allow_hemizygote,
      allow_hemizygote := allow_hemizygote,
      max_alleles := ma }
  (base.add_genotype (none, none)).2

/-- Value of a little-endian bit list. -/
def bitsToNat : List Bool → Nat
  | [] => 0
  | b :: bs => (if b then 1 else 0) + 2 * bitsToNat bs

/-- Little-endian bit list of a value, truncated to the given width. -/
def natToBits : Nat → Nat → List Bool
  | 0, _ => []
  | w + 1, v => (v % 2 = 1) :: natToBits w (v / 2)

/-- Modelled from the spec: getbits from the bitarray C module, which is not
under src.  Spec section 4.3: all bit indices are little-endian within a
byte, consistent between read and write paths.  Buffers are bit lists where
list index 8*B+k is bit k of byte B; getbits reads width consecutive bits
starting at startbit as a little-endian value. -/
def getbits (data : List Bool) (startbit width : Nat) : Nat :=
  bitsToNat ((data.drop startbit).take width)

/-- Modelled from the spec: setbits from the bitarray C module, which is not
under src.  Writes the low width bits of value, little-endian, at startbit,
leaving the rest of the buffer unchanged. -/
def setbits (data : List Bool) (startbit value width : Nat) : List Bool :=
  data.take startbit ++ natToBits width value ++ data.drop (startbit + width)

/-- Source: genoarray.py GenotypeArrayDescriptor - the model sequence, the
cumulative bit offset list of length n+1, total bit and byte size, and the
shared width (or 0) in the homogeneous field. -/
structure GenotypeArrayDescriptor where
  models : List UnphasedMarkerModel
  offsets : List Nat
  bit_size : Nat
  byte_size : Nat
  homogeneous : Nat
  deriving Repr, DecidableEq, Inhabited

/-- Cumulative offsets: offsets[0] = initial offset and
offsets[i+1] = offsets[i] + widths[i], as built by the descriptor loop. -/
def cumOffsets (acc : Nat) : List Nat → List Nat
  | [] => [acc]
  | w :: ws => acc :: cumOffsets (acc + w) ws

/-- Source: GenotypeArrayDescriptor.__init__(models, initial_offset).
The homogeneous field starts from models[0].bit_size (0 when empty) and is
zeroed as soon as some model width differs from its current value. -/
def GenotypeArrayDescriptor.init (models : List UnphasedMarkerModel) (initial_offset : Nat) :
    GenotypeArrayDescriptor :=
  let offsets := cumOffsets initial_offset (models.map (fun m => m.bit_size))
  let bit_size := offsets.getLastD 0
  let h0 := match models with
            | [] => 0
            | m :: _ => m.bit_size
  { models := models,
    offsets := offsets,
    bit_size := bit_size,
    byte_size := byte_array_size bit_size,
    homogeneous := models.foldl (fun h m => if m.bit_size ≠ h then 0 else h) h0 }

/-- Source: genoarray.py GenotypeArray - a descriptor plus the packed data
buffer, modeled as a bit list of length byte_size * 8. -/
structure GenotypeArray where
  descriptor : GenotypeArrayDescriptor
  data : List Bool
  deriving Repr, DecidableEq, Inhabited

/-- Source: GenotypeArray.__getitem__(i) for an index: read
model[i].bit_size bits at offsets[i] and look the value up in the model
genotype list. -/
def GenotypeArray.getIdx (ga : GenotypeArray) (i : Nat) : Genotype :=
  let model := ga.descriptor.models.getD i default
  let startbit := ga.descriptor.offsets.getD i 0
  model.genotypes.getD (getbits ga.data startbit model.bit_size) default

/-- Source: the full slice self[:], a list of every position decoded. -/
def GenotypeArray.toList (ga : GenotypeArray) : List Genotype :=
  (List.range ga.descriptor.models.length).map ga.getIdx

/-- Decoded genotype calls of an array, as allele tuples (this is the
observable the round-trip properties compare). -/
def GenotypeArray.calls (ga : GenotypeArray) : List Pair :=
  ga.toList.map Genotype.alleles

/-- Source: GenotypeArray.__setitem__(i, geno) for a Genotype already coded
by the model at position i: write its dense index into the bit region.  The
source recodes geno through model[geno.alleles()] when geno.model is not the
identical model object; model sharing is by identity in the source and every
use in the embedded pipeline supplies a genotype of the identical model, so
the recode branch is not modeled. -/
def GenotypeArray.setIdx (ga : GenotypeArray) (i : Nat) (g : Genotype) : GenotypeArray :=
  let model := ga.descriptor.models.getD i default
  let startbit := ga.descriptor.offsets.getD i 0
  { ga with data := setbits ga.data startbit g.index model.bit_size }

/-- Source: GenotypeArray.__init__(descriptor, genos) - a zeroed buffer of
byte_size bytes followed by the slice assignment self[:] = genos, which
raises IndexError when the genotype count differs from the descriptor
length. -/
def GenotypeArray.ofGenos (descr : GenotypeArrayDescriptor) (genos : List Genotype) :
    Except GErr GenotypeArray :=
  if genos.length ≠ descr.models.length then Except.error GErr.indexError
  else
    Except.ok (genos.enum.foldl (fun ga p => ga.setIdx p.1 p.2)
      { descriptor := descr, data := List.replicate (descr.byte_size * 8) false })

/-- Modelled from the spec: glu.lib.genolib.locus (Genome, Locus) is not
under src.  Per spec section 4.4 the codec only consumes per-locus metadata:
an optional fixed model plus chromosome, location and strand, with unknown
defaults.  A Locus record carries exactly those fields. -/
structure Locus where
  model : Option UnphasedMarkerModel
  chromosome : Option String
  location : Option Int
  strand : Option String

/-- Modelled from the spec: the genome registry maps a locus name to its
metadata record, defaulting to all-unknown for unseen loci. -/
structure Genome where
  get_locus : String → Locus

/-- A genome with no recorded metadata: every locus is all-unknown, which is
what Genome() yields for loci it has never seen. -/
def defaultGenome : Genome :=
  { get_locus := fun _ => { model := none, chromosome := none, location := none, strand := none } }

/-- Source: binary.py STRANDS = [None, plus, minus]. -/
def STRANDS : List (Option String) := [none, some ("+"), some ("-")]

/-- Source: binary.py STRANDMAP, the index of a strand value in STRANDS (the
dict KeyError for values outside STRANDS is not reachable from Locus values,
which only carry these three). -/
def STRANDMAP (s : Option String) : Nat :=
  if s = none then 0 else if s = some ("+") then 1 else 2

/-- Canonical key of a model in save_models:
(max_alleles, allow_hemizygote) + tuple(g.alleles() for g in genotypes[1:]). -/
abbrev ModelKey := Nat × Bool × List Pair

instance modelKeyDecEq : DecidableEq ModelKey := inferInstance

/-- Source: the key expression in save_models. -/
def modelKey (m : UnphasedMarkerModel) : ModelKey :=
  (m.max_alleles, m.allow_hemizygote, (m.genotypes.drop 1).map Genotype.alleles)

/-- Source: binary.py LocusModelDesc - one row of the locus_models table. -/
structure LocusModelRow where
  model : Nat
  chromosome : Nat
  location : Int
  strand : Nat
  deriving Repr, DecidableEq, Inhabited

/-- The five tables save_models writes, plus the ordered dedup key list the
code calls models after smashing modelmap (the source keeps it only as a
local, but the models and model_genotypes tables are direct images of it). -/
structure SaveModelsOut where
  locus_models : List LocusModelRow
  modelKeys : List ModelKey
  chromosomes : List String
  modelsTable : List (Nat × Bool)
  model_genotypes : List (Nat × Nat × Nat)
  model_alleles : List String
  deriving Repr, DecidableEq, Inhabited

/-- Mutable state of the save_models loop: the allele pool, the chromosome
pool, the model dedup map and the locus_models rows written so far. -/
structure SMState where
  allelemap : List (Allele × Nat)
  chrmap : List (Option String × Nat)
  modelmap : List (ModelKey × Nat)
  locusRows : List LocusModelRow
  deriving Repr, DecidableEq, Inhabited

/-- Source: allelemap.setdefault(allele, len(allelemap)). -/
def poolAdd (am : List (Allele × Nat)) (a : Allele) : List (Allele × Nat) :=
  match assocFind am a with
  | some _ => am
  | none => am ++ [(a, am.length)]

/-- Source: the body of the locus loop in save_models - assert the genome
model is absent or identical, dedup the model by its canonical key (pooling
its alleles on first sight), dedup the chromosome, and append the
locus_models row. -/
def saveModelsStep (genome : Genome) (st : SMState) (lm : String × UnphasedMarkerModel) :
    Except GErr SMState :=
  let loc := genome.get_locus lm.1
  if loc.model = none ∨ loc.model = some lm.2 then
    let key := modelKey lm.2
    let mm :=
      match assocFind st.modelmap key with
      | some i => (i, st.modelmap, st.allelemap)
      | none =>
          (st.modelmap.length, st.modelmap ++ [(key, st.modelmap.length)],
           lm.2.alleles.foldl poolAdd st.allelemap)
    let cc :=
      match assocFind st.chrmap loc.chromosome with
      | some c => (c, st.chrmap)
      | none => (st.chrmap.length, st.chrmap ++ [(loc.chromosome, st.chrmap.length)])
    Except.ok
      { allelemap := mm.2.2, chrmap := cc.2, modelmap := mm.2.1,
        locusRows := st.locusRows ++
          [{ model := mm.1, chromosome := cc.1,
             location := match loc.location with
                         | some x => x
                         | none => -1,
             strand := STRANDMAP loc.strand }] }
  else Except.error GErr.assertionError

/-- Source: binary.py save_models(gfile, loci, genome, models, filters).
izip_exact fails on a length mismatch; after the loop the pools are smashed
to index-ordered lists (append order equals index order here); chromosome
None becomes the empty string; the models and model_genotypes tables are
written from the dedup keys; model_alleles overwrites entry 0 (always the
missing allele) with the empty string, raising IndexError when the pool is
empty. -/
def save_models (loci : List String) (genome : Genome) (models : List UnphasedMarkerModel) :
    Except GErr SaveModelsOut :=
  if loci.length ≠ models.length then Except.error GErr.lengthMismatch
  else
    match (loci.zip models).foldlM (saveModelsStep genome) ⟨[], [], [], []⟩ with
    | Except.error e => Except.error e
    | Except.ok st =>
      let keys := st.modelmap.map (fun p => p.1)
      match st.allelemap.map (fun p => p.1) with
      | [] => Except.error GErr.indexError
      | _ :: restAlleles =>
        Except.ok
          { locus_models := st.locusRows,
            modelKeys := keys,
            chromosomes := st.chrmap.map (fun p =>
              match p.1 with
              | some s => s
              | none => ""),
            modelsTable := keys.map (fun k => (k.1, k.2.1)),
            model_genotypes :=
              (keys.enum.map (fun ik =>
                ik.2.2.2.map (fun p =>
                  (ik.1, (assocFind st.allelemap p.1).getD 0,
                   (assocFind st.allelemap p.2).getD 0)))).flatten,
            model_alleles := ("") :: restAlleles.map (fun a =>
              match a with
              | some s => s
              | none => "") }

/-- Source: the model reconstruction loop shared by load_models_v1/v2:
UnphasedMarkerModel(mod[1], mod[0]) followed by add_genotype on every stored
genotype tuple in order, exceptions propagating. -/
def buildModel (allow_hemizygote : Bool) (max_alleles : Nat) (genos : List Pair) :
    Except GErr UnphasedMarkerModel :=
  genos.foldlM (fun m p =>
      match m.add_genotype p with
      | (Except.ok _, m2) => Except.ok m2
      | (Except.error e, _) => Except.error e)
    (UnphasedMarkerModel.init allow_hemizygote (some max_alleles))

/-- Cache key of the reconstruction loop:
(mod allow_hemizygote, mod max_alleles) + genotypes. -/
abbrev LoadKey := Bool × Nat × List Pair

instance loadKeyDecEq : DecidableEq LoadKey := inferInstance

/-- Source: the modelcache loop of load_models_v1/v2 over the models table,
yielding one reconstructed (and cached, hence reference-shared) model per
stored model entry. -/
def reconstructModels (mgenos : Nat → List Pair) :
    List (Nat × (Nat × Bool)) → List (LoadKey × UnphasedMarkerModel) →
    List UnphasedMarkerModel → Except GErr (List UnphasedMarkerModel)
  | [], _, acc => Except.ok acc
  | imod :: rest, cache, acc =>
      let genotypes := mgenos imod.1
      let key : LoadKey := (imod.2.2, imod.2.1, genotypes)
      match assocFind cache key with
      | some m => reconstructModels mgenos rest cache (acc ++ [m])
      | none =>
          match buildModel imod.2.2 imod.2.1 genotypes with
          | Except.error e => Except.error e
          | Except.ok m => reconstructModels mgenos rest (cache ++ [(key, m)]) (acc ++ [m])

/-- Source: the model_genotypes dict built by groupby(...) in load_models:
the tuples of alleles for one model index.  The rows are written grouped by
ascending model index, for which grouping consecutive runs and keying them
by index is the same as filtering by index. -/
def modelGenotypesFor (alleles : List Allele) (tbl : List (Nat × Nat × Nat)) (i : Nat) :
    List Pair :=
  (tbl.filter (fun r => r.1 = i)).map (fun r =>
    (alleles.getD r.2.1 none, alleles.getD r.2.2 none))

/-- On-disk content of a binary genotype matrix file: the root attributes,
the fixed row width in bytes and chunk shape of the genotypes EArray, the
packed genotype rows, the row and column label tables and the model tables.
Each packed row is a bit list of length rowbytes * 8. -/
structure BinFile where
  format : String
  version : Nat
  compat_version : Nat
  rowbytes : Nat
  chunkshape : Nat × Nat
  genotypes : List (List Bool)
  rows : List String
  cols : List String
  modelsOut : SaveModelsOut
  deriving Repr, DecidableEq, Inhabited

/-- Source: binary.py GENOMATRIX_COMPAT_VERSION, GENOMATRIX_VERSION = 1, 2. -/
def GENOMATRIX_COMPAT_VERSION : Nat := 1

/-- Source: the current genomatrix format version. -/
def GENOMATRIX_VERSION : Nat := 2

/-- Source: binary.py load_models_v2(gfile, loci): assert the locus_models
row count equals the locus count, rebuild the allele list with entry 0
restored to None, reconstruct each distinct model once, then produce the
per-locus model list (the chromosome and strand table lookups are kept for
their IndexError behavior; the Locus metadata itself is not consumed by the
claims). -/
def load_models_v2 (f : BinFile) (loci : List String) :
    Except GErr (List UnphasedMarkerModel) :=
  if f.modelsOut.locus_models.length ≠ loci.length then Except.error GErr.assertionError
  else
    match f.modelsOut.model_alleles with
    | [] => Except.error GErr.indexError
    | _ :: rest =>
      let alleles : List Allele := none :: rest.map some
      match reconstructModels (modelGenotypesFor alleles f.modelsOut.model_genotypes)
              (f.modelsOut.modelsTable.enum) [] [] with
      | Except.error e => Except.error e
      | Except.ok allmodels =>
          f.modelsOut.locus_models.mapM (fun r =>
            match allmodels.get? r.model, f.modelsOut.chromosomes.get? r.chromosome,
                  STRANDS.get? r.strand with
            | some m, some _, some _ => Except.ok m
            | _, _, _ => Except.error GErr.indexError)

/-- Source: binary.py load_models_v1(gfile, loci), identical to v2 except
that no chromosome or strand data is consulted. -/
def load_models_v1 (f : BinFile) (loci : List String) :
    Except GErr (List UnphasedMarkerModel) :=
  if f.modelsOut.locus_models.length ≠ loci.length then Except.error GErr.assertionError
  else
    match f.modelsOut.model_alleles with
    | [] => Except.error GErr.indexError
    | _ :: rest =>
      let alleles : List Allele := none :: rest.map some
      match reconstructModels (modelGenotypesFor alleles f.modelsOut.model_genotypes)
              (f.modelsOut.modelsTable.enum) [] [] with
      | Except.error e => Except.error e
      | Except.ok allmodels =>
          f.modelsOut.locus_models.mapM (fun r =>
            match allmodels.get? r.model with
            | some m => Except.ok m
            | none => Except.error GErr.indexError)

/-- Source: binary.py load_models(gfile, loci, version) dispatch. -/
def load_models (f : BinFile) (loci : List String) (version : Nat) :
    Except GErr (List UnphasedMarkerModel) :=
  if version = 1 then load_models_v1 f loci
  else if version = 2 then load_models_v2 f loci
  else Except.error (GErr.valueError ("Unknown Genotriple file version"))

/-- Source: binary.py CLOSED, NOTOPEN, OPEN = range(3). -/
def CLOSED : Nat := 0

/-- Writer state before the first row arrives. -/
def NOTOPEN : Nat := 1

/-- Writer state once the output geometry is fixed. -/
def OPEN : Nat := 2

/-- Source: binary.py BinaryGenomatrixWriter.  The PyTables handles become
in-memory tables: genotypesTable holds the chunks already appended to the
genotypes EArray, chunk the rows buffered since the last flush, and out the
finished file once close() has written it (None both before close and when
close wrote nothing).  Filenames and the HDF5 container are not modeled
(fileutils is not under src); compression only selects PyTables filters and
never changes table contents, so the flag is carried but has no effect. -/
structure BinaryGenomatrixWriter where
  format : String
  header : List String
  genome : Genome
  compress : Bool
  scratch : Nat
  state : Nat
  rowbytes : Nat
  chunkrows : Nat
  chunkcols : Nat
  rowkeys : List String
  chunk : List (List Bool)
  genotypesTable : List (List Bool)
  models : List UnphasedMarkerModel
  out : Option BinFile

/-- Source: BinaryGenomatrixWriter.__init__(filename, format, header,
genome, compress, scratch): formats other than ldat and sdat are rejected
with IOError (the compressed-extension check concerns only the filename,
which is not modeled). -/
def BinaryGenomatrixWriter.mkNew (format : String) (header : List String) (genome : Genome)
    (compress : Bool) (scratch : Nat) : Except GErr BinaryGenomatrixWriter :=
  if format ≠ "ldat" ∧ format ≠ "sdat" then
    Except.error (GErr.ioError ("format must be either ldat or sdat"))
  else
    Except.ok
      { format := format, header := header, genome := genome, compress := compress,
        scratch := scratch, state := NOTOPEN, rowbytes := 0, chunkrows := 0, chunkcols := 0,
        rowkeys := [], chunk := [], genotypesTable := [], models := [], out := none }

/-- Source: BinaryGenomatrixWriter._open(row1): fix the row width in bytes
from the first row, derive the chunk shape from the scratch budget
(ZeroDivisionError on a zero-byte row), seed the model list for sdat from
the shared descriptor, and move to OPEN. -/
def BinaryGenomatrixWriter.openW (w : BinaryGenomatrixWriter) (row1 : GenotypeArray) :
    Except GErr BinaryGenomatrixWriter :=
  let n := row1.data.length / 8
  if n = 0 then Except.error GErr.zeroDivisionError
  else
    Except.ok
      { w with
        rowbytes := n,
        chunkrows := min (max 8 (w.scratch / n)) 8192,
        chunkcols := min n 8192,
        models := if w.format = "sdat" then row1.descriptor.models else [],
        rowkeys := [], chunk := [], genotypesTable := [],
        state := OPEN }

/-- Source: the shared append step of writerow and the writerows loops: for
ldat record the row model, append the row key and packed data to the current
chunk, and flush the chunk to the genotypes table when it reaches chunkrows
rows. -/
def BinaryGenomatrixWriter.appendRow (w : BinaryGenomatrixWriter)
    (rowkey : String) (genos : GenotypeArray) : BinaryGenomatrixWriter :=
  let w1 := if w.format = "ldat"
            then { w with models := w.models ++ [genos.descriptor.models.headD default] }
            else w
  let w2 := { w1 with rowkeys := w1.rowkeys ++ [rowkey], chunk := w1.chunk ++ [genos.data] }
  if w2.chunkrows ≤ w2.chunk.length then
    { w2 with genotypesTable := w2.genotypesTable ++ w2.chunk, chunk := [] }
  else w2

/-- Source: BinaryGenomatrixWriter.writerow(rowkey, genos): IOError on a
closed writer, lazy open on the first row, then the append step. -/
def BinaryGenomatrixWriter.writerow (w : BinaryGenomatrixWriter)
    (rowkey : String) (genos : GenotypeArray) :
    Except GErr Unit × BinaryGenomatrixWriter :=
  if w.state = CLOSED then
    (Except.error (GErr.ioError ("Cannot write to closed writer object")), w)
  else
    match (if w.state = NOTOPEN then w.openW genos else Except.ok w) with
    | Except.error e => (Except.error e, w)
    | Except.ok w1 => (Except.ok (), w1.appendRow rowkey genos)

/-- The per-row loops of writerows (both orientations perform the append
step on every remaining row). -/
def BinaryGenomatrixWriter.writerowsLoop (w : BinaryGenomatrixWriter) :
    List (String × GenotypeArray) → BinaryGenomatrixWriter
  | [] => w
  | r :: rest => (w.appendRow r.1 r.2).writerowsLoop rest

/-- Source: BinaryGenomatrixWriter.writerows(rows): IOError on a closed
writer; when not yet open, take the first row (returning on StopIteration),
open with it and write it via writerow, then run the bulk loop. -/
def BinaryGenomatrixWriter.writerows (w : BinaryGenomatrixWriter)
    (rows : List (String × GenotypeArray)) :
    Except GErr Unit × BinaryGenomatrixWriter :=
  if w.state = CLOSED then
    (Except.error (GErr.ioError ("Cannot write to closed writer object")), w)
  else if w.state = NOTOPEN then
    match rows with
    | [] => (Except.ok (), w)
    | r1 :: rest =>
      match w.openW r1.2 with
      | Except.error e => (Except.error e, w)
      | Except.ok w1 => (Except.ok (), (w1.appendRow r1.1 r1.2).writerowsLoop rest)
  else
    (Except.ok (), w.writerowsLoop rows)

/-- Source: BinaryGenomatrixWriter.close(): IOError when already closed; a
writer that never opened just moves to CLOSED and writes nothing (the FIXME
in the source acknowledges no valid empty genomatrix can be written);
otherwise the partial chunk is flushed, the row and column label tables are
written, loci are the row keys for ldat and the header for sdat, and
save_models writes the model tables.  The source sets state = CLOSED before
writing, so a failure inside save_models leaves a closed writer and no
finished file. -/
def BinaryGenomatrixWriter.close (w : BinaryGenomatrixWriter) :
    Except GErr Unit × BinaryGenomatrixWriter :=
  if w.state = CLOSED then
    (Except.error (GErr.ioError ("Writer object already closed")), w)
  else if w.state = NOTOPEN then
    (Except.ok (), { w with state := CLOSED })
  else
    let table := w.genotypesTable ++ w.chunk
    let loci := if w.format = "ldat" then w.rowkeys else w.header
    match save_models loci w.genome w.models with
    | Except.error e => (Except.error e, { w with state := CLOSED })
    | Except.ok sm =>
        (Except.ok (),
         { w with state := CLOSED, genotypesTable := table, chunk := [],
                  out := some
                    { format := w.format,
                      version := GENOMATRIX_VERSION,
                      compat_version := GENOMATRIX_COMPAT_VERSION,
                      rowbytes := w.rowbytes,
                      chunkshape := (w.chunkrows, w.chunkcols),
                      genotypes := table,
                      rows := w.rowkeys,
                      cols := w.header,
                      modelsOut := sm } })

/-- Modelled from the spec: glu.lib.genolib.streams.GenomatrixStream is not
under src.  Per the spec a genomatrix stream is an orientation tag, the
sample and locus label lists and the sequence of (label, packed row) pairs;
its columns are the loci for sdat and the samples for ldat. -/
structure GenomatrixStream where
  format : String
  samples : List String
  loci : List String
  genome : Genome
  rows : List (String × GenotypeArray)

/-- Column labels of a stream (spec: samples index sdat rows and loci sdat
columns, and conversely for ldat). -/
def GenomatrixStream.columns (g : GenomatrixStream) : List String :=
  if g.format = "sdat" then g.loci else g.samples

/-- Source: binary.py save_genomatrix_binary(filename, genos, compress,
scratch): construct the writer, write all rows, close.  The
genos.transformed(repack=True) call re-packs every row into a fresh array of
the same descriptor, the identity on the packed rows modeled here.  The
context manager closes the writer on exit; the resulting file (None when
nothing was written) is returned for the reader side. -/
def save_genomatrix_binary (genos : GenomatrixStream) (compress : Bool) (scratch : Nat) :
    Except GErr (Option BinFile) :=
  match BinaryGenomatrixWriter.mkNew genos.format genos.columns genos.genome compress scratch with
  | Except.error e => Except.error e
  | Except.ok w =>
    match w.writerows genos.rows with
    | (Except.error e, _) => Except.error e
    | (Except.ok _, w1) =>
      match w1.close with
      | (Except.error e, _) => Except.error e
      | (Except.ok _, w2) => Except.ok w2.out

/-- Source: the column-boundary search in the cross-orientation loaders:
while (stopbit - startbit) < chunkbits and stop < len(columns):
stop += 1; stopbit = descr.offsets[stop].  Indexing offsets out of range
raises IndexError.  The recursion is driven by fuel; fuel = len(columns) is
always enough because stop strictly increases and the loop stops at
len(columns), and exhausted fuel returns the same state the loop would. -/
def findStop (offsets : List Nat) (ncols chunkbits startbit : Nat) :
    Nat → Nat × Nat → Except GErr (Nat × Nat)
  | 0, s => Except.ok s
  | fuel + 1, s =>
      if s.2 - startbit < chunkbits ∧ s.1 < ncols then
        match offsets.get? (s.1 + 1) with
        | some b => findStop offsets ncols chunkbits startbit fuel (s.1 + 1, b)
        | none => Except.error GErr.indexError
      else Except.ok s

/-- Source: the chunk loop of the sdat-requested, sdat-stored loader: rows
and table are consumed chunksize at a time, every row decoded against the
one shared descriptor. -/
def sameSdatGo (descr : GenotypeArrayDescriptor) (chunksize : Nat) :
    Nat → List String → List (List Bool) → Except GErr (List (String × GenotypeArray))
  | 0, _, _ => Except.ok []
  | fuel + 1, labels, table =>
      match (labels.take chunksize).enum.mapM (fun jl =>
          match (table.take chunksize).get? jl.1 with
          | some d => Except.ok (jl.2, GenotypeArray.mk descr d)
          | none => Except.error GErr.indexError) with
      | Except.error e => Except.error e
      | Except.ok out =>
          match sameSdatGo descr chunksize fuel (labels.drop chunksize) (table.drop chunksize) with
          | Except.error e => Except.error e
          | Except.ok rest => Except.ok (out ++ rest)

/-- Source: the chunk loop of the ldat-requested, ldat-stored loader: as the
sdat case but one model is consumed per row and each row is decoded against
a descriptor repeating that model across the samples (the descrcache only
avoids rebuilding equal descriptors and never changes the value). -/
def sameLdatGo (nsamples : Nat) (chunksize : Nat) :
    Nat → List String → List (List Bool) → List UnphasedMarkerModel →
    Except GErr (List (String × GenotypeArray))
  | 0, _, _, _ => Except.ok []
  | fuel + 1, labels, table, mods =>
      match (labels.take chunksize).enum.mapM (fun jl =>
          match (table.take chunksize).get? jl.1, (mods.take chunksize).get? jl.1 with
          | some d, some m =>
              Except.ok (jl.2,
                GenotypeArray.mk (GenotypeArrayDescriptor.init (List.replicate nsamples m) 0) d)
          | _, _ => Except.error GErr.indexError) with
      | Except.error e => Except.error e
      | Except.ok out =>
          match sameLdatGo nsamples chunksize fuel (labels.drop chunksize)
                  (table.drop chunksize) (mods.drop chunksize) with
          | Except.error e => Except.error e
          | Except.ok rest => Except.ok (out ++ rest)

/-- Source: the chunk loop of the ldat-requested, sdat-stored loader.  Each
iteration advances the column window [start, stop) via findStop, slices the
stored byte columns [startbyte, stopbyte) of every stored row, decodes them
against a chunk descriptor with the residual bit offset, and emits one
output row per window column by re-packing that column of the decoded
intermediate against a descriptor repeating the column model across the
stored rows. -/
def crossLdatGo (table : List (List Bool)) (descr : GenotypeArrayDescriptor)
    (models : List UnphasedMarkerModel) (columns : List String) (nrows : Nat)
    (chunkbits : Nat) : Nat → Nat → Nat → Except GErr (List (String × GenotypeArray))
  | 0, _, _ => Except.ok []
  | fuel + 1, stop0, stopbit0 =>
      match findStop descr.offsets columns.length chunkbits stopbit0
              columns.length (stop0, stopbit0) with
      | Except.error e => Except.error e
      | Except.ok st =>
        let start := stop0
        let startbit := stopbit0
        let labels := (columns.drop start).take (st.1 - start)
        let startbyte := startbit / 8
        let stopbyte := (st.2 + 7) / 8
        let offset := startbit % 8
        let chunk := table.map (fun r => (r.drop (8 * startbyte)).take (8 * (stopbyte - startbyte)))
        let chunkdescr := GenotypeArrayDescriptor.init
          ((models.drop start).take (st.1 - start)) offset
        match (List.range nrows).mapM (fun j =>
            match chunk.get? j with
            | some d => Except.ok (GenotypeArray.mk chunkdescr d).toList
            | none => Except.error GErr.indexError) with
        | Except.error e => Except.error e
        | Except.ok chunkgenos =>
          match labels.enum.mapM (fun jl =>
              match GenotypeArray.ofGenos
                  (GenotypeArrayDescriptor.init
                    (List.replicate nrows (models.getD (start + jl.1) default)) 0)
                  (chunkgenos.map (fun cg => cg.getD jl.1 default)) with
              | Except.error e => Except.error e
              | Except.ok g => Except.ok (jl.2, g)) with
          | Except.error e => Except.error e
          | Except.ok out =>
            match crossLdatGo table descr models columns nrows chunkbits fuel st.1 st.2 with
            | Except.error e => Except.error e
            | Except.ok rest => Except.ok (out ++ rest)

/-- Source: the chunk loop of the sdat-requested, ldat-stored loader.  As
crossLdatGo, but the chunk descriptor repeats each stored row model across
the window and the emitted rows are re-packed against the one full
descriptor over the per-locus models. -/
def crossSdatGo (table : List (List Bool)) (descr : GenotypeArrayDescriptor)
    (models : List UnphasedMarkerModel) (columns : List String) (nrows : Nat)
    (chunkbits : Nat) : Nat → Nat → Nat → Except GErr (List (String × GenotypeArray))
  | 0, _, _ => Except.ok []
  | fuel + 1, stop0, stopbit0 =>
      match findStop descr.offsets columns.length chunkbits stopbit0
              columns.length (stop0, stopbit0) with
      | Except.error e => Except.error e
      | Except.ok st =>
        let start := stop0
        let startbit := stopbit0
        let labels := (columns.drop start).take (st.1 - start)
        let startbyte := startbit / 8
        let stopbyte := (st.2 + 7) / 8
        let offset := startbit % 8
        let chunk := table.map (fun r => (r.drop (8 * startbyte)).take (8 * (stopbyte - startbyte)))
        match (List.range nrows).mapM (fun j =>
            match chunk.get? j with
            | some d =>
                Except.ok (GenotypeArray.mk
                  (GenotypeArrayDescriptor.init
                    (List.replicate (st.1 - start) (models.getD j default)) offset) d).toList
            | none => Except.error GErr.indexError) with
        | Except.error e => Except.error e
        | Except.ok chunkgenos =>
          match labels.enum.mapM (fun jl =>
              match GenotypeArray.ofGenos descr
                  (chunkgenos.map (fun cg => cg.getD jl.1 default)) with
              | Except.error e => Except.error e
              | Except.ok g => Except.ok (jl.2, g)) with
          | Except.error e => Except.error e
          | Except.ok out =>
            match crossSdatGo table descr models columns nrows chunkbits fuel st.1 st.2 with
            | Except.error e => Except.error e
            | Except.ok rest => Except.ok (out ++ rest)

/-- Source: binary.py load_genomatrix_binary(filename, format, ...): reads
the format tag and version attributes, rejects a requested format outside
ldat and sdat (note the source checks the format argument, not the stored
tag), rejects files whose compat version is too new, degrades a newer
version to the compat version, derives samples and loci from the stored
orientation (any tag other than sdat is treated as ldat there), enforces
unique labels when requested, loads the models, and dispatches on the
(requested, stored) orientation pair; when no branch matches, the _load
local was never assigned and referencing it raises UnboundLocalError.  The
lazily produced row stream is materialized eagerly, errors during production
abort the whole result.  None stands for a path at which no file was
written; opening it raises IOError. -/
def load_genomatrix_binary (file : Option BinFile) (format : String)
    (unique : Bool) (scratch : Nat) :
    Except GErr (String × List String × List String × List (String × GenotypeArray)) :=
  match file with
  | none => Except.error (GErr.ioError ("file not found"))
  | some f =>
    let format_found := f.format
    if format ≠ "ldat" ∧ format ≠ "sdat" then
      Except.error (GErr.valueError ("Unknown format: " ++ format))
    else if GENOMATRIX_VERSION < f.compat_version then
      Except.error (GErr.valueError ("Unknown Genomatrix file version"))
    else
      let version := if GENOMATRIX_VERSION < f.version then f.compat_version else f.version
      let columns := f.cols
      let rows := f.rows
      let sl := if format_found = "sdat" then (rows, columns) else (columns, rows)
      if unique = true ∧ ¬columns.Nodup then
        Except.error (GErr.valueError ("Non-unique column identifiers"))
      else if unique = true ∧ ¬rows.Nodup then
        Except.error (GErr.valueError ("Non-unique column identifiers"))
      else
        match load_models f sl.2 version with
        | Except.error e => Except.error e
        | Except.ok models =>
          let branch :=
            if format = "sdat" ∧ format_found = "sdat" then
              if f.rowbytes = 0 then Except.error GErr.zeroDivisionError
              else
                let descr := GenotypeArrayDescriptor.init models 0
                let chunksize := max 2 (scratch / f.rowbytes)
                sameSdatGo descr chunksize ((rows.length + chunksize - 1) / chunksize)
                  rows f.genotypes
            else if format = "ldat" ∧ format_found = "ldat" then
              if f.rowbytes = 0 then Except.error GErr.zeroDivisionError
              else
                let chunksize := max 2 (scratch / f.rowbytes)
                sameLdatGo sl.1.length chunksize ((rows.length + chunksize - 1) / chunksize)
                  rows f.genotypes models
            else if format = "ldat" ∧ format_found = "sdat" then
              let descr := GenotypeArrayDescriptor.init models 0
              if f.chunkshape.2 * rows.length = 0 then Except.error GErr.zeroDivisionError
              else
                let chunksize := max 1 (scratch / (f.chunkshape.2 * rows.length)) * f.chunkshape.2
                crossLdatGo f.genotypes descr models columns rows.length (chunksize * 8)
                  ((f.rowbytes + chunksize - 1) / chunksize) 0 0
            else if format = "sdat" ∧ format_found = "ldat" then
              let descr := GenotypeArrayDescriptor.init models 0
              if f.chunkshape.2 * rows.length = 0 then Except.error GErr.zeroDivisionError
              else
                let chunksize := max 1 (scratch / (f.chunkshape.2 * rows.length)) * f.chunkshape.2
                crossSdatGo f.genotypes descr models columns rows.length (chunksize * 8)
                  ((f.rowbytes + chunksize - 1) / chunksize) 0 0
            else Except.error GErr.unboundLocal
          match branch with
          | Except.error e => Except.error e
          | Except.ok rowsOut => Except.ok (format, sl.1, sl.2, rowsOut)

/-- Genotype of a model for a pair already present in its genotype map (the
lookup the doctests perform when naming NN, AA and friends). -/
def modelGeno (m : UnphasedMarkerModel) (p : Pair) : Genotype :=
  (assocFind m.genomap p).getD default

/-- Model of locus l1 of the end-to-end scenario of the spec: a two-allele
model holding the genotypes (A,A), (A,G) and (G,G). -/
def scenarioModel1 : UnphasedMarkerModel :=
  ((((UnphasedMarkerModel.init false (some 2)).add_genotype
      (some ("A"), some ("A"))).2.add_genotype
      (some ("A"), some ("G"))).2.add_genotype
      (some ("G"), some ("G"))).2

/-- Model of locus l2 of the end-to-end scenario: a two-allele model holding
the genotypes (C,T) and (T,T); the missing genotype is index 0. -/
def scenarioModel2 : UnphasedMarkerModel :=
  (((UnphasedMarkerModel.init false (some 2)).add_genotype
      (some ("C"), some ("T"))).2.add_genotype
      (some ("T"), some ("T"))).2

/-- Shared loci-major row descriptor of scenario locus l1 (three samples of
the one model). -/
def scenarioDescr1 : GenotypeArrayDescriptor :=
  GenotypeArrayDescriptor.init (List.replicate 3 scenarioModel1) 0

/-- Shared loci-major row descriptor of scenario locus l2. -/
def scenarioDescr2 : GenotypeArrayDescriptor :=
  GenotypeArrayDescriptor.init (List.replicate 3 scenarioModel2) 0

/-- Packed loci-major row of locus l1: calls (A,A), (A,G), (G,G). -/
def scenarioRow1 : GenotypeArray :=
  match GenotypeArray.ofGenos scenarioDescr1
      [modelGeno scenarioModel1 (some ("A"), some ("A")),
       modelGeno scenarioModel1 (some ("A"), some ("G")),
       modelGeno scenarioModel1 (some ("G"), some ("G"))] with
  | Except.ok g => g
  | Except.error _ => GenotypeArray.mk scenarioDescr1 []

/-- Packed loci-major row of locus l2: calls (None,None), (C,T), (T,T). -/
def scenarioRow2 : GenotypeArray :=
  match GenotypeArray.ofGenos scenarioDescr2
      [modelGeno scenarioModel2 (none, none),
       modelGeno scenarioModel2 (some ("C"), some ("T")),
       modelGeno scenarioModel2 (some ("T"), some ("T"))] with
  | Except.ok g => g
  | Except.error _ => GenotypeArray.mk scenarioDescr2 []

/-- The end-to-end scenario matrix of the spec: loci-major, samples s1 s2
s3, loci l1 l2, with the calls above. -/
def scenarioStream : GenomatrixStream :=
  { format := "ldat",
    samples := ["s1", "s2", "s3"],
    loci := ["l1", "l2"],
    genome := defaultGenome,
    rows := [("l1", scenarioRow1), ("l2", scenarioRow2)] }

/-- Result of writing the scenario matrix with the default writer settings
(compression on, 16 MiB scratch). -/
def scenarioSaved : Except GErr (Option BinFile) :=
  save_genomatrix_binary scenarioStream true (16 * 1024 * 1024)

/-- The scenario file on disk (None would mean the save failed or wrote
nothing). -/
def scenarioFile : Option BinFile :=
  match scenarioSaved with
  | Except.ok f => f
  | Except.error _ => none

/-- The scenario file with its stored format tag replaced by the tag of the
genotriple format, an on-disk state the matrix loader must reject. -/
def scenarioBadTagFile : Option BinFile :=
  match scenarioFile with
  | some f => some { f with format := "genotriple" }
  | none => none

/-- The bit width the spec text prescribes: ceil(log2 m) read as the least k
with m at most 2^k, where m is the spec formula (n+1)(n+2)/2 with
hemizygotes and n(n+1)/2 + 1 without. -/
def specBitWidth (n : Nat) (h : Bool) : Nat :=
  Nat.find
    (Exists.intro (if h then (n + 1) * (n + 2) / 2 else n * (n + 1) / 2 + 1)
      (Nat.le_of_lt (Nat.lt_two_pow (if h then (n + 1) * (n + 2) / 2 else n * (n + 1) / 2 + 1)))
     : ∃ k, (if h then (n + 1) * (n + 2) / 2 else n * (n + 1) / 2 + 1) ≤ 2 ^ k)

/-- Association list binding each key of the list to its position offset by
s, the canonical shape of the save_models model dedup map. -/
def mkModelMap (keys : List ModelKey) (s : Nat) : List (ModelKey × Nat) :=
  match keys with
  | [] => []
  | k :: rest => (k, s) :: mkModelMap rest (s + 1)

/-- A model constructed with max_alleles = 2 already holding the two proper
alleles A and B (through its two homozygous genotypes). -/
def twoAlleleModel : UnphasedMarkerModel :=
  (((UnphasedMarkerModel.init false (some 2)).add_genotype
      (some ("A"), some ("A"))).2.add_genotype
      (some ("B"), some ("B"))).2

/-- A freshly constructed ldat writer that has not received any row. -/
def sampleWriter : BinaryGenomatrixWriter :=
  match BinaryGenomatrixWriter.mkNew ("ldat") ["s1"] defaultGenome true (16 * 1024 * 1024) with
  | Except.ok w => w
  | Except.error _ =>
      { format := "ldat", header := [], genome := defaultGenome, compress := true,
        scratch := 0, state := NOTOPEN, rowbytes := 0, chunkrows := 0, chunkcols := 0,
        rowkeys := [], chunk := [], genotypesTable := [], models := [], out := none }

/-- Whether an Except value is a success. -/
def exceptIsOk {α : Type} (e : Except GErr α) : Bool :=
  match e with
  | Except.ok _ => true
  | Except.error _ => false

/-- The dedup key list of a successful save_models result ([] on error). -/
def saveModelsKeys (r : Except GErr SaveModelsOut) : List ModelKey :=
  match r with
  | Except.ok out => out.modelKeys
  | Except.error _ => []

/-- The locus_models rows of a successful save_models result ([] on error). -/
def saveModelsRows (r : Except GErr SaveModelsOut) : List LocusModelRow :=
  match r with
  | Except.ok out => out.locus_models
  | Except.error _ => []

theorem clog2Aux_spec (fuel : Nat) : ∀ m, 1 ≤ m → m ≤ fuel →
    m ≤ 2 ^ clog2Aux fuel m ∧ ∀ j, m ≤ 2 ^ j → clog2Aux fuel m ≤ j := by
  induction fuel with
  | zero => intro m h1 h2; exfalso; omega
  | succ fuel ih =>
      intro m h1 h2
      by_cases hm : m ≤ 1
      · have hm1 : m = 1 := by omega
        subst hm1
        have hz : clog2Aux (fuel + 1) 1 = 0 := by simp [clog2Aux]
        rw [hz]
        exact ⟨by norm_num, fun j _ => Nat.zero_le j⟩
      · have h1a : 1 ≤ (m + 1) / 2 := by omega
        have h2a : (m + 1) / 2 ≤ fuel := by omega
        obtain ⟨ha, hb⟩ := ih ((m + 1) / 2) h1a h2a
        have hrec : clog2Aux (fuel + 1) m = clog2Aux fuel ((m + 1) / 2) + 1 := by
          simp [clog2Aux, hm]
        rw [hrec]
        have hp : (2 : Nat) ^ (clog2Aux fuel ((m + 1) / 2) + 1) =
            2 * 2 ^ clog2Aux fuel ((m + 1) / 2) := by
          rw [pow_succ]; ring
        constructor
        · rw [hp]; omega
        · intro j hj
          match j with
          | 0 => simp at hj; omega
          | j + 1 =>
              have h2j : (2 : Nat) ^ (j + 1) = 2 * 2 ^ j := by rw [pow_succ]; ring
              have hj2 : (m + 1) / 2 ≤ 2 ^ j := by omega
              have := hb j hj2
              omega

theorem ceil_log2_least (m : Nat) (h1 : 1 ≤ m) :
    m ≤ 2 ^ ceil_log2 m ∧ ∀ j, m ≤ 2 ^ j → ceil_log2 m ≤ j :=
  clog2Aux_spec m m h1 (le_refl m)

theorem genotype_count_pos (n : Nat) (h : Bool) :
    1 ≤ (if h then (n + 1) * (n + 2) / 2 else n * (n + 1) / 2 + 1) := by
  cases h with
  | false => simp
  | true =>
      simp only [if_true]
      have h2 : 2 ≤ (n + 1) * (n + 2) := by
        calc 2 = 1 * 2 := by norm_num
        _ ≤ (n + 1) * (n + 2) := Nat.mul_le_mul (by omega) (by omega)
      calc 1 = 2 / 2 := by norm_num
      _ ≤ (n + 1) * (n + 2) / 2 := Nat.div_le_div_right h2

theorem genotype_bit_size_eq_spec (n : Nat) (h : Bool) :
    genotype_bit_size n h = specBitWidth n h := by
  have hpos := genotype_count_pos n h
  obtain ⟨ha, hb⟩ := ceil_log2_least _ hpos
  symm
  unfold specBitWidth
  rw [Nat.find_eq_iff]
  refine ⟨ha, ?_⟩
  intro k hk hcon
  have hb2 := hb k hcon
  unfold genotype_bit_size at hk
  omega

theorem add_allele_preserves (m : UnphasedMarkerModel) (a : Allele) :
    (m.add_allele a).2.max_alleles = m.max_alleles ∧
    (m.add_allele a).2.bit_size = m.bit_size ∧
    (m.add_allele a).2.allow_hemizygote = m.allow_hemizygote := by
  unfold UnphasedMarkerModel.add_allele
  split
  · exact ⟨rfl, rfl, rfl⟩
  · dsimp only
    split
    · exact ⟨rfl, rfl, rfl⟩
    · exact ⟨rfl, rfl, rfl⟩

theorem add_genotype_preserves (m : UnphasedMarkerModel) (p : Pair) :
    (m.add_genotype p).2.max_alleles = m.max_alleles ∧
    (m.add_genotype p).2.bit_size = m.bit_size ∧
    (m.add_genotype p).2.allow_hemizygote = m.allow_hemizygote := by
  unfold UnphasedMarkerModel.add_genotype
  cases hf : assocFind m.genomap p with
  | some g => exact ⟨rfl, rfl, rfl⟩
  | none =>
      dsimp only
      rcases h1 : m.add_allele (sortPair p).1 with ⟨r1, m1⟩
      have e1 := add_allele_preserves m (sortPair p).1
      rw [h1] at e1
      cases r1 with
      | error e => exact e1
      | ok i1 =>
          dsimp only
          rcases h2 : m1.add_allele (sortPair p).2 with ⟨r2, m2⟩
          have e2 := add_allele_preserves m1 (sortPair p).2
          rw [h2] at e2
          cases r2 with
          | error e =>
              exact ⟨e2.1.trans e1.1, e2.2.1.trans e1.2.1, e2.2.2.trans e1.2.2⟩
          | ok i2 =>
              dsimp only
              split
              · exact ⟨e2.1.trans e1.1, e2.2.1.trans e1.2.1, e2.2.2.trans e1.2.2⟩
              · exact ⟨e2.1.trans e1.1, e2.2.1.trans e1.2.1, e2.2.2.trans e1.2.2⟩

theorem get_genotype_preserves (m : UnphasedMarkerModel) (p : Pair) :
    (m.get_genotype p).2.max_alleles = m.max_alleles ∧
    (m.get_genotype p).2.bit_size = m.bit_size ∧
    (m.get_genotype p).2.allow_hemizygote = m.allow_hemizygote := by
  unfold UnphasedMarkerModel.get_genotype
  cases hf : assocFind m.genomap p with
  | some g => exact ⟨rfl, rfl, rfl⟩
  | none =>
      dsimp only
      split
      · exact add_genotype_preserves m p
      · exact ⟨rfl, rfl, rfl⟩

theorem init_fields (h : Bool) (ma : Option Nat) :
    (UnphasedMarkerModel.init h ma).max_alleles =
      (match ma with
       | none => 2
       | some k => max 2 k) ∧
    (UnphasedMarkerModel.init h ma).bit_size =
      genotype_bit_size
        (match ma with
         | none => 2
         | some k => max 2 k) h ∧
    (UnphasedMarkerModel.init h ma).allow_hemizygote = h := by
  unfold UnphasedMarkerModel.init
  have e := add_genotype_preserves
    { alleles := [], genotypes := [], genomap := [],
      bit_size := genotype_bit_size
        (match ma with
         | none => 2
         | some k => max 2 k) h,
      allow_hemizygote := h,
      max_alleles :=
        (match ma with
         | none => 2
         | some k => max 2 k) } (none, none)
  exact ⟨e.1, e.2.1, e.2.2⟩

/-- C2: for every allele count n and hemizygote flag, genotype_bit_size
equals ceil(log2(n(n+1)/2 + 1)) without hemizygotes and
ceil(log2((n+1)(n+2)/2)) with them (the spec-side ceiling log being the
least k with the genotype count at most 2^k), in particular at
n in {0,1,2,3,5,10}; and a model's bit_size is fixed at construction as
this function of its max_alleles attribute. -/
theorem C2_bit_width_formula :
    (∀ (n : Nat) (h : Bool), genotype_bit_size n h = specBitWidth n h) ∧
    ([0, 1, 2, 3, 5, 10].map (fun n => genotype_bit_size n false) = [0, 1, 2, 3, 4, 6]) ∧
    ([0, 1, 2, 3, 5, 10].map (fun n => genotype_bit_size n true) = [0, 2, 3, 4, 5, 7]) ∧
    (∀ (h : Bool) (ma : Option Nat),
      (UnphasedMarkerModel.init h ma).bit_size =
        genotype_bit_size (UnphasedMarkerModel.init h ma).max_alleles h) := by
  refine ⟨genotype_bit_size_eq_spec, by decide, by decide, ?_⟩
  intro h ma
  obtain ⟨e1, e2, _⟩ := init_fields h ma
  rw [e1, e2]

/-- C9: construction clamps max_alleles to max(2, requested) with None also
clamped to 2, the fixed bit_size is computed from the clamped value (so a
model requested with max_alleles = 1 has the width of a two-allele model),
and every operation preserves max_alleles and bit_size. -/
theorem C9_max_alleles_clamped :
    (∀ h : Bool, (UnphasedMarkerModel.init h none).max_alleles = 2) ∧
    (∀ (h : Bool) (k : Nat), (UnphasedMarkerModel.init h (some k)).max_alleles = max 2 k) ∧
    (∀ (h : Bool) (ma : Option Nat),
      (UnphasedMarkerModel.init h ma).bit_size =
        genotype_bit_size (UnphasedMarkerModel.init h ma).max_alleles h) ∧
    (∀ h : Bool,
      (UnphasedMarkerModel.init h (some 1)).bit_size =
        (UnphasedMarkerModel.init h (some 2)).bit_size) ∧
    (∀ (m : UnphasedMarkerModel) (a : Allele),
      (m.add_allele a).2.max_alleles = m.max_alleles ∧
      (m.add_allele a).2.bit_size = m.bit_size) ∧
    (∀ (m : UnphasedMarkerModel) (p : Pair),
      (m.add_genotype p).2.max_alleles = m.max_alleles ∧
      (m.add_genotype p).2.bit_size = m.bit_size) ∧
    (∀ (m : UnphasedMarkerModel) (p : Pair),
      (m.get_genotype p).2.max_alleles = m.max_alleles ∧
      (m.get_genotype p).2.bit_size = m.bit_size) := by
  refine ⟨?_, ?_, ?_, ?_, ?_, ?_, ?_⟩
  · intro h; exact (init_fields h none).1
  · intro h k; exact (init_fields h (some k)).1
  · intro h ma
    obtain ⟨e1, e2, _⟩ := init_fields h ma
    rw [e1, e2]
  · intro h
    rw [(init_fields h (some 1)).2.1, (init_fields h (some 2)).2.1]
    norm_num
  · intro m a
    exact ⟨(add_allele_preserves m a).1, (add_allele_preserves m a).2.1⟩
  · intro m p
    exact ⟨(add_genotype_preserves m p).1, (add_genotype_preserves m p).2.1⟩
  · intro m p
    exact ⟨(get_genotype_preserves m p).1, (get_genotype_preserves m p).2.1⟩

/-- C4 (corrected): get_genotype on a pair not among the created genotypes
fails with the KeyError and leaves the model unchanged exactly when some
allele of the pair is unknown to the model or the pair is a disallowed
hemizygote; otherwise it silently delegates to add_genotype, so auto-growth
does happen through get_genotype. -/
theorem C4_get_genotype_lookup (m : UnphasedMarkerModel) (p : Pair)
    (hnotin : assocFind m.genomap p = none) :
    (¬(p.1 ∈ m.alleles ∧ p.2 ∈ m.alleles ∧
        (m.allow_hemizygote = true ∨ hemiPair p = false)) →
      m.get_genotype p = (Except.error GErr.keyError, m)) ∧
    ((p.1 ∈ m.alleles ∧ p.2 ∈ m.alleles ∧
        (m.allow_hemizygote = true ∨ hemiPair p = false)) →
      m.get_genotype p = m.add_genotype p) := by
  unfold UnphasedMarkerModel.get_genotype
  rw [hnotin]
  dsimp only
  constructor
  · intro hno; rw [if_neg hno]
  · intro hyes; rw [if_pos hyes]

/-- C4 counterexample: on a two-allele model holding (A,A) and (B,B), the
pair (A,B) is not among the created genotypes, yet get_genotype succeeds
and appends a new genotype instead of failing with the unknown-genotype
error - refuting the claim that get_genotype never adds a genotype. -/
theorem C4_counterexample_get_adds :
    assocFind twoAlleleModel.genomap (some ("A"), some ("B")) = none ∧
    exceptIsOk (twoAlleleModel.get_genotype (some ("A"), some ("B"))).1 = true ∧
    (twoAlleleModel.get_genotype (some ("A"), some ("B"))).2.genotypes.length =
      twoAlleleModel.genotypes.length + 1 := by
  refine ⟨rfl, rfl, rfl⟩

/-- C4 witness: the amended statement applied at the same model and the
hemizygous pair (A, None), which is rejected with KeyError. -/
theorem C4_witness :
    assocFind twoAlleleModel.genomap (some ("A"), none) = none ∧
    (twoAlleleModel.get_genotype (some ("A"), none) =
      (Except.error GErr.keyError, twoAlleleModel)) :=
  ⟨rfl,
   (C4_get_genotype_lookup twoAlleleModel (some ("A"), none) rfl).1
     (by decide)⟩

theorem countP_isSome_add_count (l : List Allele) :
    l.countP (fun x => x.isSome) + l.count none = l.length := by
  induction l with
  | nil => rfl
  | cons a t ih =>
      cases a with
      | none => simp [List.countP_cons, List.count_cons]; omega
      | some s => simp [List.countP_cons, List.count_cons]; omega

theorem countP_isSome_append (l : List Allele) (c : Allele)
    (h1 : l.count none = 1) (h2 : c ∉ l) :
    (l ++ [c]).countP (fun x => x.isSome) = l.length := by
  have hmem : none ∈ l := by
    by_contra hno
    rw [List.count_eq_zero_of_not_mem hno] at h1
    omega
  have hc : c ≠ none := fun he => h2 (he ▸ hmem)
  have hsome : c.isSome = true := Option.isSome_iff_ne_none.mpr hc
  have hlen := countP_isSome_add_count l
  have hlen2 : 1 ≤ l.length := List.length_pos.mpr (List.ne_nil_of_mem hmem)
  rw [List.countP_append]
  simp [List.countP_cons, hsome]
  omega

/-- C5: adding a third proper allele to a model constructed with
max_alleles = 2 that already holds two proper alleles fails with the
capacity error and leaves the model (genotype set included) unchanged; in
general, adding an unknown allele fails exactly when the bit width required
for the resulting proper-allele count exceeds the width fixed at
construction, and otherwise appends it and returns its index, a known
allele returning its existing index. -/
theorem C5_add_allele_capacity :
    (∀ (m : UnphasedMarkerModel) (c a b : Allele),
      m.alleles = [none, a, b] →
      m.bit_size = genotype_bit_size 2 m.allow_hemizygote →
      c ∉ m.alleles →
      m.add_allele c =
        (Except.error
          (GErr.genotypeError ("Allele cannot be added to model due to fixed bit width")), m)) ∧
    (∀ (m : UnphasedMarkerModel) (c : Allele), c ∈ m.alleles →
      m.add_allele c = (Except.ok (pyIndex m.alleles c), m)) ∧
    (∀ (m : UnphasedMarkerModel) (c : Allele),
      c ∉ m.alleles → m.alleles.count none = 1 →
      (m.bit_size <
          genotype_bit_size ((m.alleles ++ [c]).countP (fun x => x.isSome))
            m.allow_hemizygote →
        m.add_allele c =
          (Except.error
            (GErr.genotypeError ("Allele cannot be added to model due to fixed bit width")), m)) ∧
      (genotype_bit_size ((m.alleles ++ [c]).countP (fun x => x.isSome))
          m.allow_hemizygote ≤ m.bit_size →
        m.add_allele c = (Except.ok m.alleles.length, { m with alleles := m.alleles ++ [c] }))) := by
  have hgen : ∀ (m : UnphasedMarkerModel) (c : Allele),
      c ∉ m.alleles →
      (m.bit_size < genotype_bit_size m.alleles.length m.allow_hemizygote →
        m.add_allele c =
          (Except.error
            (GErr.genotypeError ("Allele cannot be added to model due to fixed bit width")), m)) ∧
      (genotype_bit_size m.alleles.length m.allow_hemizygote ≤ m.bit_size →
        m.add_allele c = (Except.ok m.alleles.length, { m with alleles := m.alleles ++ [c] })) := by
    intro m c hc
    unfold UnphasedMarkerModel.add_allele
    rw [if_neg hc]
    constructor
    · intro hlt
      rw [if_pos hlt]
    · intro hle
      rw [if_neg (by omega)]
  refine ⟨?_, ?_, ?_⟩
  · intro m c a b hal hbit hc
    have hlen : m.alleles.length = 3 := by rw [hal]; rfl
    have hwid : m.bit_size < genotype_bit_size m.alleles.length m.allow_hemizygote := by
      rw [hlen, hbit]
      rcases m.allow_hemizygote with _ | _
      · decide
      · decide
    exact (hgen m c hc).1 hwid
  · intro m c hc
    unfold UnphasedMarkerModel.add_allele
    rw [if_pos hc]
  · intro m c hc hcount
    have he := countP_isSome_append m.alleles c hcount hc
    rw [he]
    exact hgen m c hc

/-- C5 witness: the capacity clause applied at the concrete two-allele
model and the unknown allele C, together with the known-allele clause at B
and the exactness clause at C. -/
theorem C5_witness :
    twoAlleleModel.alleles = [none, some ("A"), some ("B")] ∧
    twoAlleleModel.add_allele (some ("C")) =
      (Except.error
        (GErr.genotypeError ("Allele cannot be added to model due to fixed bit width")),
       twoAlleleModel) ∧
    twoAlleleModel.add_allele (some ("B")) = (Except.ok 2, twoAlleleModel) :=
  ⟨rfl,
   C5_add_allele_capacity.1 twoAlleleModel (some ("C")) (some ("A")) (some ("B"))
     rfl rfl (by decide),
   C5_add_allele_capacity.2.1 twoAlleleModel (some ("B")) (by decide)⟩

theorem closed_writer_rejects (w : BinaryGenomatrixWriter) (h : w.state = CLOSED) :
    (∀ (k : String) (g : GenotypeArray),
      w.writerow k g =
        (Except.error (GErr.ioError ("Cannot write to closed writer object")), w)) ∧
    w.close = (Except.error (GErr.ioError ("Writer object already closed")), w) := by
  constructor
  · intro k g
    unfold BinaryGenomatrixWriter.writerow
    rw [if_pos h]
  · unfold BinaryGenomatrixWriter.close
    rw [if_pos h]

/-- C6: once close() has succeeded the writer is CLOSED; every later
writerow fails with the closed-writer IOError and every later close fails
with the already-closed IOError, and both failing calls return the writer
(hence its tables and row keys, hence the file) unchanged. -/
theorem C6_writer_one_way (w w1 : BinaryGenomatrixWriter) (u : Unit)
    (h : w.close = (Except.ok u, w1)) :
    w1.state = CLOSED ∧
    (∀ (k : String) (g : GenotypeArray),
      w1.writerow k g =
        (Except.error (GErr.ioError ("Cannot write to closed writer object")), w1)) ∧
    w1.close = (Except.error (GErr.ioError ("Writer object already closed")), w1) := by
  have hstate : w1.state = CLOSED := by
    unfold BinaryGenomatrixWriter.close at h
    split at h
    · exact absurd h (by simp)
    · split at h
      · injection h with h1 h2
        rw [← h2]
      · dsimp only at h
        cases hs : save_models (if w.format = "ldat" then w.rowkeys else w.header)
            w.genome w.models with
        | error e =>
            rw [hs] at h
            exact absurd h (by simp)
        | ok sm =>
            rw [hs] at h
            injection h with h1 h2
            rw [← h2]
  exact ⟨hstate, (closed_writer_rejects w1 hstate).1, (closed_writer_rejects w1 hstate).2⟩

/-- C6 witness: closing a fresh writer succeeds, after which a second close
fails with the already-closed error, and a writerow on the closed writer
fails with the closed-writer error leaving the writer unchanged. -/
theorem C6_witness :
    sampleWriter.close = (Except.ok (), { sampleWriter with state := CLOSED }) ∧
    ({ sampleWriter with state := CLOSED } : BinaryGenomatrixWriter).close =
      (Except.error (GErr.ioError ("Writer object already closed")),
       { sampleWriter with state := CLOSED }) ∧
    ({ sampleWriter with state := CLOSED } : BinaryGenomatrixWriter).writerow ("s1")
        (GenotypeArray.mk (GenotypeArrayDescriptor.init [] 0) []) =
      (Except.error (GErr.ioError ("Cannot write to closed writer object")),
       { sampleWriter with state := CLOSED }) :=
  ⟨rfl,
   (C6_writer_one_way sampleWriter { sampleWriter with state := CLOSED } () rfl).2.2,
   (C6_writer_one_way sampleWriter { sampleWriter with state := CLOSED } () rfl).2.1
     ("s1") (GenotypeArray.mk (GenotypeArrayDescriptor.init [] 0) [])⟩

/-- C10: closing a writer that never received a row succeeds, only flips
the state to CLOSED (so no genotype, label or model tables are produced and
no output file exists), and only a second close then fails with the
already-closed error. -/
theorem C10_close_unopened (w : BinaryGenomatrixWriter)
    (h1 : w.state = NOTOPEN) (h2 : w.out = none) :
    w.close = (Except.ok (), { w with state := CLOSED }) ∧
    ({ w with state := CLOSED } : BinaryGenomatrixWriter).out = none ∧
    ({ w with state := CLOSED } : BinaryGenomatrixWriter).genotypesTable = w.genotypesTable ∧
    ({ w with state := CLOSED } : BinaryGenomatrixWriter).rowkeys = w.rowkeys ∧
    ({ w with state := CLOSED } : BinaryGenomatrixWriter).close =
      (Except.error (GErr.ioError ("Writer object already closed")),
       { w with state := CLOSED }) := by
  have hnc : ¬(w.state = CLOSED) := by rw [h1]; decide
  refine ⟨?_, h2, rfl, rfl, ?_⟩
  · unfold BinaryGenomatrixWriter.close
    rw [if_neg hnc, if_pos h1]
  · exact (closed_writer_rejects _ rfl).2

/-- C10 witness: the statement applied at the fresh sample writer. -/
theorem C10_witness :
    sampleWriter.state = NOTOPEN ∧
    sampleWriter.close = (Except.ok (), { sampleWriter with state := CLOSED }) ∧
    ({ sampleWriter with state := CLOSED } : BinaryGenomatrixWriter).out = none :=
  ⟨rfl,
   (C10_close_unopened sampleWriter rfl rfl).1,
   (C10_close_unopened sampleWriter rfl rfl).2.1⟩

theorem charListLt_both_false : ∀ x y : List Char,
    charListLt x y = false → charListLt y x = false → x = y := by
  intro x
  induction x with
  | nil =>
      intro y h1 h2
      cases y with
      | nil => rfl
      | cons d ds => simp [charListLt] at h1
  | cons c cs ih =>
      intro y h1 h2
      cases y with
      | nil => simp [charListLt] at h2
      | cons d ds =>
          simp only [charListLt] at h1 h2
          by_cases hcd : c.toNat < d.toNat
          · rw [if_pos hcd] at h1
            exact absurd h1 (by simp)
          · by_cases hdc : d.toNat < c.toNat
            · rw [if_pos hdc] at h2
              exact absurd h2 (by simp)
            · rw [if_neg hcd, if_neg hdc] at h1
              rw [if_neg hdc, if_neg hcd] at h2
              have hn : c.toNat = d.toNat := by omega
              have hce : c = d := Char.ext (UInt32.ext hn)
              rw [hce, ih ds h1 h2]

theorem charListLt_asymm : ∀ x y : List Char,
    charListLt x y = true → charListLt y x = false := by
  intro x
  induction x with
  | nil =>
      intro y h1
      cases y with
      | nil => simp [charListLt] at h1
      | cons d ds => simp [charListLt]
  | cons c cs ih =>
      intro y h1
      cases y with
      | nil => simp [charListLt] at h1
      | cons d ds =>
          simp only [charListLt] at h1 ⊢
          by_cases hcd : c.toNat < d.toNat
          · rw [if_neg (by omega : ¬d.toNat < c.toNat), if_pos hcd]
          · by_cases hdc : d.toNat < c.toNat
            · rw [if_neg hcd, if_pos hdc] at h1
              exact absurd h1 (by simp)
            · rw [if_neg hcd, if_neg hdc] at h1
              rw [if_neg hdc, if_neg hcd]
              exact ih ds h1

theorem alleleLt_both_false (a b : Allele)
    (h1 : alleleLt a b = false) (h2 : alleleLt b a = false) : a = b := by
  cases a with
  | none =>
      cases b with
      | none => rfl
      | some y => simp [alleleLt] at h1
  | some x =>
      cases b with
      | none => simp [alleleLt] at h2
      | some y =>
          simp only [alleleLt, stringLt] at h1 h2
          have := charListLt_both_false x.data y.data h1 h2
          cases x with
          | mk dx =>
              cases y with
              | mk dy =>
                  simp only at this
                  rw [this]

theorem alleleLt_asymm (a b : Allele) (h1 : alleleLt a b = true) :
    alleleLt b a = false := by
  cases a with
  | none =>
      cases b with
      | none => simp [alleleLt] at h1
      | some y => simp [alleleLt]
  | some x =>
      cases b with
      | none => simp [alleleLt] at h1
      | some y => exact charListLt_asymm x.data y.data h1

theorem sortPair_comm (a b : Allele) : sortPair (a, b) = sortPair (b, a) := by
  unfold sortPair
  dsimp only
  by_cases h1 : alleleLt b a = true
  · rw [if_pos h1, if_neg (by rw [alleleLt_asymm b a h1]; simp)]
  · by_cases h2 : alleleLt a b = true
    · rw [if_neg (by simpa using h1), if_pos h2]
    · have he : a = b :=
        alleleLt_both_false a b (by simpa using h2) (by simpa using h1)
      rw [he]

theorem assocFind_assocSet_self {κ α : Type} [DecidableEq κ]
    (l : List (κ × α)) (k : κ) (v : α) :
    assocFind (assocSet l k v) k = some v := by
  induction l with
  | nil => simp [assocSet, assocFind]
  | cons p rest ih =>
      by_cases hp : p.1 = k
      · simp [assocSet, assocFind, hp]
      · simp only [assocSet, assocFind]
        rw [if_neg hp, ]
        simp only [assocFind]
        rw [if_neg hp]
        exact ih

theorem assocFind_assocSet_ne {κ α : Type} [DecidableEq κ]
    (l : List (κ × α)) (k k2 : κ) (v : α) (h : k2 ≠ k) :
    assocFind (assocSet l k v) k2 = assocFind l k2 := by
  induction l with
  | nil =>
      simp only [assocSet, assocFind]
      rw [if_neg (fun he => h (Eq.symm he))]
  | cons p rest ih =>
      by_cases hp : p.1 = k
      · simp only [assocSet]
        rw [if_pos hp]
        simp only [assocFind]
        rw [if_neg (by rw [hp]; exact fun he => h he.symm),
            if_neg (by rw [hp]; exact fun he => h he.symm)]
      · simp only [assocSet]
        rw [if_neg hp]
        simp only [assocFind]
        by_cases hk2 : p.1 = k2
        · rw [if_pos hk2, if_pos hk2]
        · rw [if_neg hk2, if_neg hk2]
          exact ih

theorem assocFind_double_set {κ α : Type} [DecidableEq κ]
    (l : List (κ × α)) (k1 k2 k : κ) (v : α) (h : k = k1 ∨ k = k2) :
    assocFind (assocSet (assocSet l k1 v) k2 v) k = some v := by
  by_cases hk2 : k = k2
  · subst hk2
    exact assocFind_assocSet_self _ _ _
  · have hk1 : k = k1 := h.resolve_right hk2
    subst hk1
    rw [assocFind_assocSet_ne _ _ _ _ hk2]
    exact assocFind_assocSet_self _ _ _

theorem pyIndex_getD (l : List Allele) (x : Allele) (h : x ∈ l) :
    l.getD (pyIndex l x) none = x ∧ pyIndex l x < l.length := by
  induction l with
  | nil => simp at h
  | cons a t ih =>
      by_cases ha : a = x
      · subst ha
        simp [pyIndex]
      · have hx : x ∈ t := by
          cases h with
          | head => exact absurd rfl ha
          | tail _ ht => exact ht
        obtain ⟨ih1, ih2⟩ := ih hx
        constructor
        · simp only [pyIndex]
          rw [if_neg ha]
          simpa using ih1
        · simp only [pyIndex]
          rw [if_neg ha]
          simp only [List.length_cons]
          omega

theorem add_allele_ok (m : UnphasedMarkerModel) (x : Allele) (i : Nat)
    (m2 : UnphasedMarkerModel) (h : m.add_allele x = (Except.ok i, m2)) :
    m2.alleles.getD i none = x ∧ i < m2.alleles.length ∧
    (m2.alleles = m.alleles ∨ m2.alleles = m.alleles ++ [x]) := by
  unfold UnphasedMarkerModel.add_allele at h
  split at h
  · rename_i hmem
    injection h with h1 h2
    injection h1 with h1
    rw [← h2, ← h1]
    obtain ⟨e1, e2⟩ := pyIndex_getD m.alleles x hmem
    exact ⟨e1, e2, Or.inl rfl⟩
  · dsimp only at h
    split at h
    · exact absurd h (by simp)
    · injection h with h1 h2
      injection h1 with h1
      rw [← h2, ← h1]
      refine ⟨?_, ?_, Or.inr rfl⟩
      · rw [List.getD_append_right _ _ _ _ (le_refl _)]
        simp
      · simp

theorem assocFind_symm_of_diag (gm : List (Pair × Genotype))
    (hdiag : ∀ p ∈ gm, p.1.1 = p.1.2) :
    ∀ x y : Allele, assocFind gm (x, y) = assocFind gm (y, x) := by
  induction gm with
  | nil => intro x y; rfl
  | cons p rest ih =>
      intro x y
      have hd : p.1.1 = p.1.2 := hdiag p (List.mem_cons_self p rest)
      have hrest : ∀ q ∈ rest, q.1.1 = q.1.2 :=
        fun q hq => hdiag q (List.mem_cons_of_mem p hq)
      simp only [assocFind]
      by_cases hk : p.1 = (x, y)
      · have hk2 : p.1 = (y, x) := by
          have e1 : p.1.1 = x := by rw [hk]
          have e2 : p.1.2 = y := by rw [hk]
          have ex : x = y := by rw [← e1, hd, e2]
          rw [hk, ex]
        rw [if_pos hk, if_pos hk2]
      · by_cases hk2 : p.1 = (y, x)
        · exfalso
          apply hk
          have e1 : p.1.1 = y := by rw [hk2]
          have e2 : p.1.2 = x := by rw [hk2]
          have ex : y = x := by rw [← e1, hd, e2]
          rw [hk2, ex]
        · rw [if_neg hk, if_neg hk2]
          exact ih hrest x y

/-- C8: on a model whose genotype map is order-symmetric (as every model
built by the constructor and add_genotype is, since both orders are always
inserted together), add_genotype of (a,b) and of (b,a) return identical
results - and after a successful add of (a,b), adding (b,a) returns the
very same genotype, same dense index, with the model unchanged. -/
theorem C8_add_genotype_symmetric (m : UnphasedMarkerModel) (a b : Allele)
    (hsym : ∀ x y : Allele, assocFind m.genomap (x, y) = assocFind m.genomap (y, x)) :
    m.add_genotype (a, b) = m.add_genotype (b, a) ∧
    (∀ (g : Genotype) (m1 : UnphasedMarkerModel),
      m.add_genotype (a, b) = (Except.ok g, m1) →
      m1.add_genotype (b, a) = (Except.ok g, m1)) := by
  constructor
  · unfold UnphasedMarkerModel.add_genotype
    rw [hsym a b, sortPair_comm a b]
  · intro g m1 hadd
    have hfind : assocFind m1.genomap (b, a) = some g := by
      unfold UnphasedMarkerModel.add_genotype at hadd
      cases hf : assocFind m.genomap (a, b) with
      | some g0 =>
          rw [hf] at hadd
          dsimp only at hadd
          injection hadd with h1 h2
          injection h1 with h1
          rw [← h2, ← h1, hsym b a]
          exact hf
      | none =>
          rw [hf] at hadd
          dsimp only at hadd
          rcases h1 : m.add_allele (sortPair (a, b)).1 with ⟨r1, mA⟩
          rw [h1] at hadd
          cases r1 with
          | error e => exact absurd hadd (by simp)
          | ok i1 =>
              dsimp only at hadd
              rcases h2 : mA.add_allele (sortPair (a, b)).2 with ⟨r2, mB⟩
              rw [h2] at hadd
              cases r2 with
              | error e => exact absurd hadd (by simp)
              | ok i2 =>
                  dsimp only at hadd
                  split at hadd
                  · exact absurd hadd (by simp)
                  · injection hadd with hg hm
                    injection hg with hg
                    obtain ⟨e1a, e1b, _⟩ := add_allele_ok m _ i1 mA h1
                    obtain ⟨e2a, _, e2c⟩ := add_allele_ok mA _ i2 mB h2
                    have hal1 : mB.alleles.getD i1 none = (sortPair (a, b)).1 := by
                      rcases e2c with hc | hc
                      · rw [hc]; exact e1a
                      · rw [hc, List.getD_append _ _ _ _ e1b]; exact e1a
                    have hal2 : mB.alleles.getD i2 none = (sortPair (a, b)).2 := e2a
                    have hsp : sortPair (a, b) = (a, b) ∨ sortPair (a, b) = (b, a) := by
                      unfold sortPair
                      split
                      · exact Or.inr rfl
                      · exact Or.inl rfl
                    rw [← hm]
                    dsimp only
                    rw [hg, hal1, hal2]
                    apply assocFind_double_set
                    rcases hsp with hc | hc
                    · rw [hc]
                      exact Or.inr rfl
                    · rw [hc]
                      exact Or.inl rfl
    unfold UnphasedMarkerModel.add_genotype
    rw [hfind]

/-- C8 witness: the symmetry statement applied at the concrete two-allele
model with a = A and b = B, both for the equality of the two call orders
and for the second call returning the identical genotype after a
successful first add. -/
theorem C8_witness :
    twoAlleleModel.add_genotype (some ("A"), some ("B")) =
      twoAlleleModel.add_genotype (some ("B"), some ("A")) ∧
    ((twoAlleleModel.add_genotype (some ("A"), some ("B"))).2.add_genotype
        (some ("B"), some ("A")) =
      twoAlleleModel.add_genotype (some ("A"), some ("B"))) := by
  have hsym : ∀ x y : Allele,
      assocFind twoAlleleModel.genomap (x, y) = assocFind twoAlleleModel.genomap (y, x) :=
    assocFind_symm_of_diag twoAlleleModel.genomap (by decide)
  have h := C8_add_genotype_symmetric twoAlleleModel (some ("A")) (some ("B")) hsym
  refine ⟨h.1, ?_⟩
  have happ := h.2 (modelGeno
      (twoAlleleModel.add_genotype (some ("A"), some ("B"))).2
      (some ("A"), some ("B")))
    (twoAlleleModel.add_genotype (some ("A"), some ("B"))).2 rfl
  rw [happ]
  rfl

/-- C1 (code bug): writing the 2-locus, 3-sample end-to-end scenario matrix
of the spec loci-major succeeds, but reading it back sample-major does not
yield the transposed matrix - it raises IndexError before yielding any row,
because the sdat-from-ldat chunk search walks descr.offsets (one entry per
locus, length 3 here) under the bound len(columns) = 3 samples and indexes
offsets[3]. -/
theorem C1_roundtrip_crash :
    scenarioSaved = Except.ok scenarioFile ∧
    scenarioFile.isSome = true ∧
    load_genomatrix_binary scenarioFile ("sdat") true (32 * 1024 * 1024) =
      Except.error GErr.indexError :=
  ⟨rfl, rfl, rfl⟩

/-- C7 (code bug): on a file whose stored format tag is the unrecognized
value genotriple, the loader does not raise the typed format-mismatch
ValueError - it validates only the requested format argument, then falls
through every dispatch branch and fails with UnboundLocalError, whichever
orientation the caller requests. -/
theorem C7_unknown_tag_not_typed :
    load_genomatrix_binary scenarioBadTagFile ("ldat") true (32 * 1024 * 1024) =
      Except.error GErr.unboundLocal ∧
    load_genomatrix_binary scenarioBadTagFile ("sdat") true (32 * 1024 * 1024) =
      Except.error GErr.unboundLocal ∧
    (∀ msg : String, GErr.unboundLocal ≠ GErr.valueError msg) :=
  ⟨rfl, rfl, fun _ h => GErr.noConfusion h⟩

theorem mkModelMap_find (K : ModelKey) : ∀ (keys : List ModelKey) (s : Nat),
    assocFind (mkModelMap keys s) K =
      (if K ∈ keys then some (s + pyIndex keys K) else none) := by
  intro keys
  induction keys with
  | nil => intro s; simp [mkModelMap, assocFind]
  | cons k rest ih =>
      intro s
      simp only [mkModelMap, assocFind]
      by_cases hk : k = K
      · subst hk
        rw [if_pos rfl, if_pos (List.mem_cons_self k rest)]
        simp [pyIndex]
      · rw [if_neg hk, ih (s + 1)]
        by_cases hm : K ∈ rest
        · rw [if_pos hm, if_pos (List.mem_cons_of_mem k hm)]
          simp only [pyIndex]
          rw [if_neg hk]
          congr 1
          omega
        · rw [if_neg hm, if_neg (by
            intro hc
            cases hc with
            | head => exact hk rfl
            | tail _ ht => exact hm ht)]

theorem mkModelMap_append_one (k : ModelKey) : ∀ (keys : List ModelKey) (s : Nat),
    mkModelMap (keys ++ [k]) s = mkModelMap keys s ++ [(k, s + keys.length)] := by
  intro keys
  induction keys with
  | nil => intro s; simp [mkModelMap]
  | cons k0 rest ih =>
      intro s
      simp only [List.cons_append, mkModelMap, List.append_eq, ih (s + 1)]
      simp only [List.length_cons, List.cons_append]
      have he : s + 1 + rest.length = s + (rest.length + 1) := by omega
      rw [he]

theorem mkModelMap_map_fst : ∀ (keys : List ModelKey) (s : Nat),
    (mkModelMap keys s).map (fun p => p.1) = keys := by
  intro keys
  induction keys with
  | nil => intro s; rfl
  | cons k rest ih =>
      intro s
      simp only [mkModelMap, List.map_cons, ih (s + 1)]

theorem pyIndex_append_left {α : Type} [DecidableEq α] (x : α) :
    ∀ (l ext : List α), x ∈ l → pyIndex (l ++ ext) x = pyIndex l x := by
  intro l
  induction l with
  | nil => intro ext h; simp at h
  | cons a t ih =>
      intro ext h
      simp only [List.cons_append, pyIndex, List.append_eq]
      by_cases ha : a = x
      · rw [if_pos ha, if_pos ha]
      · rw [if_neg ha, if_neg ha, ih ext (by
          cases h with
          | head => exact absurd rfl ha
          | tail _ ht => exact ht)]

theorem pyIndex_append_fresh {α : Type} [DecidableEq α] (x : α) :
    ∀ l : List α, x ∉ l → pyIndex (l ++ [x]) x = l.length := by
  intro l
  induction l with
  | nil => intro h; simp [pyIndex]
  | cons a t ih =>
      intro h
      have ha : a ≠ x := fun he => h (he ▸ List.mem_cons_self a t)
      have ht : x ∉ t := fun hm => h (List.mem_cons_of_mem a hm)
      simp only [List.cons_append, pyIndex, List.append_eq]
      rw [if_neg ha, ih ht]
      simp

theorem pyIndex_inj {α : Type} [DecidableEq α] (x y : α) :
    ∀ l : List α, l.Nodup → x ∈ l → y ∈ l → pyIndex l x = pyIndex l y → x = y := by
  intro l
  induction l with
  | nil => intro _ hx; simp at hx
  | cons a t ih =>
      intro hnd hx hy he
      have hnd2 : t.Nodup := (List.nodup_cons.mp hnd).2
      by_cases hax : a = x
      · by_cases hay : a = y
        · rw [← hax, ← hay]
        · simp only [pyIndex] at he
          rw [if_pos hax, if_neg hay] at he
          exact absurd he (by omega)
      · by_cases hay : a = y
        · simp only [pyIndex] at he
          rw [if_neg hax, if_pos hay] at he
          exact absurd he (by omega)
        · simp only [pyIndex] at he
          rw [if_neg hax, if_neg hay] at he
          have hx2 : x ∈ t := by
            cases hx with
            | head => exact absurd rfl hax
            | tail _ h => exact h
          have hy2 : y ∈ t := by
            cases hy with
            | head => exact absurd rfl hay
            | tail _ h => exact h
          exact ih hnd2 hx2 hy2 (by omega)

theorem poolAdd_ne_nil (am : List (Allele × Nat)) (a : Allele) : poolAdd am a ≠ [] := by
  unfold poolAdd
  cases hf : assocFind am a with
  | some v =>
      cases am with
      | nil => simp [assocFind] at hf
      | cons p rest => simp
  | none => simp

theorem foldl_poolAdd_ne_nil (xs : List Allele) (am : List (Allele × Nat))
    (h : am ≠ [] ∨ xs ≠ []) : List.foldl poolAdd am xs ≠ [] := by
  induction xs generalizing am with
  | nil =>
      cases h with
      | inl h2 => exact h2
      | inr h2 => exact absurd rfl h2
  | cons x rest ih =>
      simp only [List.foldl_cons]
      exact ih (poolAdd am x) (Or.inl (poolAdd_ne_nil am x))

theorem saveModelsStep_ok (genome : Genome) (st : SMState) (l : String)
    (model : UnphasedMarkerModel) (hg : (genome.get_locus l).model = none) :
    ∃ (cm2 : List (Option String × Nat)) (chr : Nat) (locv : Int) (strv : Nat),
      saveModelsStep genome st (l, model) = Except.ok
        { allelemap :=
            match assocFind st.modelmap (modelKey model) with
            | some _ => st.allelemap
            | none => model.alleles.foldl poolAdd st.allelemap,
          chrmap := cm2,
          modelmap :=
            match assocFind st.modelmap (modelKey model) with
            | some _ => st.modelmap
            | none => st.modelmap ++ [(modelKey model, st.modelmap.length)],
          locusRows := st.locusRows ++
            [{ model :=
                 match assocFind st.modelmap (modelKey model) with
                 | some i => i
                 | none => st.modelmap.length,
               chromosome := chr, location := locv, strand := strv }] } := by
  unfold saveModelsStep
  dsimp only
  rw [if_pos (Or.inl hg)]
  cases hf : assocFind st.modelmap (modelKey model) with
  | some i => exact ⟨_, _, _, _, rfl⟩
  | none => exact ⟨_, _, _, _, rfl⟩

theorem mkModelMap_length : ∀ (keys : List ModelKey) (s : Nat),
    (mkModelMap keys s).length = keys.length := by
  intro keys
  induction keys with
  | nil => intro s; rfl
  | cons k rest ih =>
      intro s
      simp only [mkModelMap, List.length_cons, ih (s + 1)]

theorem smFold_spec (genome : Genome) (hg : ∀ l : String, (genome.get_locus l).model = none) :
    ∀ (pairs : List (String × UnphasedMarkerModel)) (keys : List ModelKey)
      (am : List (Allele × Nat)) (cm : List (Option String × Nat)) (rows : List LocusModelRow),
      keys.Nodup →
      ∃ (keys2 : List ModelKey) (am2 : List (Allele × Nat))
        (cm2 : List (Option String × Nat)) (rows2 : List LocusModelRow),
        List.foldlM (saveModelsStep genome)
            { allelemap := am, chrmap := cm, modelmap := mkModelMap keys 0, locusRows := rows }
            pairs =
          Except.ok { allelemap := am2, chrmap := cm2, modelmap := mkModelMap keys2 0,
                      locusRows := rows2 } ∧
        keys2.Nodup ∧
        (∃ nk, keys2 = keys ++ nk) ∧
        (∀ K : ModelKey, K ∈ keys2 ↔ K ∈ keys ∨ K ∈ pairs.map (fun lm => modelKey lm.2)) ∧
        (∀ K : ModelKey, K ∈ keys2 →
          (rows2.filter (fun r => decide (r.model = pyIndex keys2 K))).length =
          (rows.filter (fun r => decide (r.model = pyIndex keys2 K))).length +
          (pairs.filter (fun lm => decide (modelKey lm.2 = K))).length) ∧
        (am ≠ [] → am2 ≠ []) ∧
        ((pairs ≠ [] ∧ keys = [] ∧ ∀ lm ∈ pairs, lm.2.alleles ≠ []) → am2 ≠ []) := by
  intro pairs
  induction pairs with
  | nil =>
      intro keys am cm rows hnd
      refine ⟨keys, am, cm, rows, rfl, hnd, ⟨[], by simp⟩, ?_, ?_, fun h => h, ?_⟩
      · intro K; simp
      · intro K hK; simp
      · intro h; exact absurd rfl h.1
  | cons p rest ih =>
      intro keys am cm rows hnd
      rcases p with ⟨l, model⟩
      obtain ⟨cmx, chr, locv, strv, hstep⟩ :=
        saveModelsStep_ok genome
          { allelemap := am, chrmap := cm, modelmap := mkModelMap keys 0, locusRows := rows }
          l model (hg l)
      dsimp only at hstep
      by_cases hmem : modelKey model ∈ keys
      · have hfind : assocFind (mkModelMap keys 0) (modelKey model) =
            some (0 + pyIndex keys (modelKey model)) := by
          rw [mkModelMap_find]
          rw [if_pos hmem]
        rw [hfind] at hstep
        dsimp only at hstep
        obtain ⟨keys2, am2, cm2, rows2, hfold, hnd2, hext, hpres, hcount, hne, hne2⟩ :=
          ih keys am cmx
            (rows ++ [{ model := 0 + pyIndex keys (modelKey model), chromosome := chr,
                        location := locv, strand := strv }]) hnd
        obtain ⟨nk, hext⟩ := hext
        refine ⟨keys2, am2, cm2, rows2, ?_, hnd2, ⟨nk, hext⟩, ?_, ?_, hne, ?_⟩
        · rw [List.foldlM_cons, hstep]
          exact hfold
        · intro K
          rw [hpres K]
          simp only [List.map_cons, List.mem_cons]
          constructor
          · rintro (h | h)
            · exact Or.inl h
            · exact Or.inr (Or.inr h)
          · rintro (h | h | h)
            · exact Or.inl h
            · rw [h]; exact Or.inl hmem
            · exact Or.inr h
        · intro K hK
          rw [hcount K hK]
          rw [List.filter_append, List.length_append]
          have hiK : pyIndex keys (modelKey model) = pyIndex keys2 (modelKey model) := by
            rw [hext, pyIndex_append_left (modelKey model) keys nk hmem]
          have hiff : (0 + pyIndex keys (modelKey model) = pyIndex keys2 K) ↔
              (modelKey model = K) := by
            rw [Nat.zero_add, hiK]
            constructor
            · intro he
              exact pyIndex_inj _ _ keys2 hnd2
                (by rw [hext]; exact List.mem_append_left nk hmem) hK he
            · intro he; rw [he]
          simp only [List.filter_cons]
          by_cases hd : modelKey model = K
          · rw [if_pos (decide_eq_true (hiff.mpr hd)), if_pos (decide_eq_true hd)]
            simp only [List.filter_nil, List.length_cons, List.length_nil]
            omega
          · have c1 : ¬(decide (0 + pyIndex keys (modelKey model) = pyIndex keys2 K) = true) := by
              simp only [decide_eq_true_eq]
              exact fun hc => hd (hiff.mp hc)
            have c2 : ¬(decide (modelKey model = K) = true) := by
              simp only [decide_eq_true_eq]
              exact hd
            rw [if_neg c1, if_neg c2]
            simp only [List.filter_nil, List.length_nil]
            omega
        · rintro ⟨hp, hkeys, hall⟩
          rw [hkeys] at hmem
          exact absurd hmem (List.not_mem_nil _)
      · have hfind : assocFind (mkModelMap keys 0) (modelKey model) = none := by
          rw [mkModelMap_find]
          rw [if_neg hmem]
        rw [hfind] at hstep
        dsimp only at hstep
        have hmm : mkModelMap keys 0 ++ [(modelKey model, (mkModelMap keys 0).length)] =
            mkModelMap (keys ++ [modelKey model]) 0 := by
          rw [mkModelMap_append_one, mkModelMap_length]
          simp
        rw [hmm] at hstep
        have hnd1 : (keys ++ [modelKey model]).Nodup := by
          simp [List.nodup_append, hnd, hmem]
        obtain ⟨keys2, am2, cm2, rows2, hfold, hnd2, hext, hpres, hcount, hne, hne2⟩ :=
          ih (keys ++ [modelKey model]) (model.alleles.foldl poolAdd am) cmx
            (rows ++ [{ model := (mkModelMap keys 0).length, chromosome := chr,
                        location := locv, strand := strv }]) hnd1
        obtain ⟨nk, hext⟩ := hext
        have hext2 : keys2 = keys ++ ([modelKey model] ++ nk) := by
          rw [hext, List.append_assoc]
        refine ⟨keys2, am2, cm2, rows2, ?_, hnd2, ⟨[modelKey model] ++ nk, hext2⟩, ?_, ?_, ?_, ?_⟩
        · rw [List.foldlM_cons, hstep]
          exact hfold
        · intro K
          rw [hpres K]
          simp only [List.map_cons, List.mem_cons, List.mem_append, List.mem_singleton,
                     List.not_mem_nil, or_false]
          tauto
        · intro K hK
          rw [hcount K hK]
          rw [List.filter_append, List.length_append]
          have hmem1 : modelKey model ∈ keys ++ [modelKey model] :=
            List.mem_append_right keys (List.mem_singleton.mpr rfl)
          have hiK : (mkModelMap keys 0).length = pyIndex keys2 (modelKey model) := by
            rw [mkModelMap_length, hext,
                pyIndex_append_left (modelKey model) (keys ++ [modelKey model]) nk hmem1,
                pyIndex_append_fresh (modelKey model) keys hmem]
          have hiff : ((mkModelMap keys 0).length = pyIndex keys2 K) ↔
              (modelKey model = K) := by
            rw [hiK]
            constructor
            · intro he
              exact pyIndex_inj _ _ keys2 hnd2
                (by rw [hext]; exact List.mem_append_left nk hmem1) hK he
            · intro he; rw [he]
          simp only [List.filter_cons]
          by_cases hd : modelKey model = K
          · rw [if_pos (decide_eq_true (hiff.mpr hd)), if_pos (decide_eq_true hd)]
            simp only [List.filter_nil, List.length_cons, List.length_nil]
            omega
          · have c1 : ¬(decide ((mkModelMap keys 0).length = pyIndex keys2 K) = true) := by
              simp only [decide_eq_true_eq]
              exact fun hc => hd (hiff.mp hc)
            have c2 : ¬(decide (modelKey model = K) = true) := by
              simp only [decide_eq_true_eq]
              exact hd
            rw [if_neg c1, if_neg c2]
            simp only [List.filter_nil, List.length_nil]
            omega
        · intro ham
          exact hne (foldl_poolAdd_ne_nil model.alleles am (Or.inl ham))
        · rintro ⟨hp, hkeys, hall⟩
          have halm : model.alleles ≠ [] :=
            hall (l, model) (List.mem_cons_self _ _)
          exact hne (foldl_poolAdd_ne_nil model.alleles am (Or.inr halm))

theorem countP_eq_one_of_nodup_mem {α : Type} [DecidableEq α] :
    ∀ (l : List α) (a : α), l.Nodup → a ∈ l →
      l.countP (fun x => decide (x = a)) = 1 := by
  intro l
  induction l with
  | nil => intro a _ hm; simp at hm
  | cons b t ih =>
      intro a hnd hm
      obtain ⟨hb, hndt⟩ := List.nodup_cons.mp hnd
      by_cases hba : b = a
      · subst hba
        rw [List.countP_cons, if_pos (decide_eq_true rfl)]
        have hz : t.countP (fun x => decide (x = b)) = 0 := by
          rw [List.countP_eq_zero]
          intro x hx
          simp only [decide_eq_true_eq]
          intro he
          exact hb (he ▸ hx)
        rw [hz]
      · rw [List.countP_cons,
            if_neg (by simp only [decide_eq_true_eq]; exact hba)]
        have hat : a ∈ t := by
          cases hm with
          | head => exact absurd rfl hba
          | tail _ h => exact h
        rw [ih a hndt hat]

theorem zip_filter_snd {α β : Type} (p : β → Bool) :
    ∀ (l1 : List α) (l2 : List β), l1.length = l2.length →
      ((l1.zip l2).filter (fun ab => p ab.2)).length = (l2.filter p).length := by
  intro l1
  induction l1 with
  | nil =>
      intro l2 h
      cases l2 with
      | nil => rfl
      | cons b t => simp at h
  | cons a t1 ih =>
      intro l2 h
      cases l2 with
      | nil => simp at h
      | cons b t2 =>
          simp only [List.zip_cons_cons, List.filter_cons]
          by_cases hp : p b = true
          · rw [if_pos hp, if_pos hp]
            simp only [List.length_cons]
            rw [ih t2 (by simpa using h)]
          · rw [if_neg hp, if_neg hp]
            exact ih t2 (by simpa using h)

/-- C3: for every matrix handed to save_models whose k loci (k at least 1)
reference models sharing one canonical definition - equal
(max_alleles, allow_hemizygote, ordered proper genotype pairs) - the
serialized model table contains exactly one entry for that definition, and
exactly k locus_models rows carry that entry's index in their model field. -/
theorem C3_model_dedup (loci : List String) (models : List UnphasedMarkerModel)
    (genome : Genome) (K : ModelKey)
    (hlen : loci.length = models.length)
    (hg : ∀ l : String, (genome.get_locus l).model = none)
    (hall : ∀ m ∈ models, m.alleles ≠ [])
    (hmem : K ∈ models.map modelKey) :
    exceptIsOk (save_models loci genome models) = true ∧
    (saveModelsKeys (save_models loci genome models)).countP
      (fun k => decide (k = K)) = 1 ∧
    ((saveModelsRows (save_models loci genome models)).filter
        (fun r => decide (r.model =
          pyIndex (saveModelsKeys (save_models loci genome models)) K))).length =
      (models.filter (fun m => decide (modelKey m = K))).length := by
  obtain ⟨keys2, am2, cm2, rows2, hfold, hnd2, hext, hpres, hcount, hne, hne2⟩ :=
    smFold_spec genome hg (loci.zip models) [] [] [] [] List.nodup_nil
  have hstart : mkModelMap [] 0 = [] := rfl
  rw [hstart] at hfold
  have hkmap : (loci.zip models).map (fun lm => modelKey lm.2) = models.map modelKey := by
    have h1 : (loci.zip models).map (fun lm => modelKey lm.2) =
        ((loci.zip models).map Prod.snd).map modelKey := by
      rw [List.map_map]
      rfl
    rw [h1, List.map_snd_zip loci models (le_of_eq hlen.symm)]
  have hKin : K ∈ keys2 := (hpres K).mpr (Or.inr (by rw [hkmap]; exact hmem))
  have hm0 : models ≠ [] := by
    intro he
    rw [he] at hmem
    simp at hmem
  have hz : loci.zip models ≠ [] := by
    intro he
    have := congrArg List.length he
    rw [List.length_zip, hlen, Nat.min_self] at this
    simp at this
    exact hm0 this
  have ham2 : am2 ≠ [] :=
    hne2 ⟨hz, rfl, fun lm hlm => hall lm.2 (List.of_mem_zip hlm).2⟩
  obtain ⟨a0, t0, ham2e⟩ := List.exists_cons_of_ne_nil ham2
  subst ham2e
  unfold save_models
  rw [if_neg (by omega)]
  rw [hfold]
  dsimp only
  simp only [mkModelMap_map_fst]
  simp only [List.map_cons]
  dsimp only [exceptIsOk, saveModelsKeys, saveModelsRows]
  refine ⟨rfl, ?_, ?_⟩
  · exact countP_eq_one_of_nodup_mem keys2 K hnd2 hKin
  · rw [hcount K hKin]
    simp only [List.filter_nil, List.length_nil, Nat.zero_add]
    exact zip_filter_snd (fun m => decide (modelKey m = K)) loci models hlen

/-- C3 witness: the dedup statement applied at two loci sharing the
scenario l1 model: one stored model entry, two locus rows referencing it. -/
theorem C3_witness :
    exceptIsOk (save_models ["x", "y"] defaultGenome [scenarioModel1, scenarioModel1]) = true ∧
    (saveModelsKeys
        (save_models ["x", "y"] defaultGenome [scenarioModel1, scenarioModel1])).countP
      (fun k => decide (k = modelKey scenarioModel1)) = 1 ∧
    ((saveModelsRows
        (save_models ["x", "y"] defaultGenome [scenarioModel1, scenarioModel1])).filter
        (fun r => decide (r.model =
          pyIndex
            (saveModelsKeys
              (save_models ["x", "y"] defaultGenome [scenarioModel1, scenarioModel1]))
            (modelKey scenarioModel1)))).length =
      ([scenarioModel1, scenarioModel1].filter
        (fun m => decide (modelKey m = modelKey scenarioModel1))).length :=
  C3_model_dedup ["x", "y"] [scenarioModel1, scenarioModel1] defaultGenome
    (modelKey scenarioModel1) rfl (fun _ => rfl) (by decide) (by decide)
